import Mathlib

set_option maxRecDepth 40000

/-!
Verification development for the `ai-codereviewer` GitHub Action.

The repository contains two near-duplicate script variants:
  * `src/main.ts` — the newer variant (deduplication, per-comment publishing,
    raw-JSON fallback when no fenced code block is present);
  * an older variant (batch review publishing, `optimizedCode` rendering,
    enumerated review dimensions in the prompt, no raw-JSON fallback).

The newer variant is embedded at top level; the older variant lives in the
`V0` namespace.  JavaScript-specific behaviours (truthiness, `Number`
coercion, template-literal printing of `undefined`, the `/```json([\s\S]*)```/`
regex, `JSON.parse`) are modelled by executable Lean functions defined below.
External collaborator libraries (`parse-diff`, `minimatch`) are modelled from
their documented contracts, as consumed by the scripts.
-/

/-! ### JavaScript string primitives -/

/-- Whitespace recognised by the model of JavaScript `String.prototype.trim`
and of insignificant JSON whitespace. -/
def wsChar (c : Char) : Bool :=
  c.toNat == 32 || (9 ≤ c.toNat && c.toNat ≤ 13)

/-- Model of JavaScript `s.trim()`: strip leading and trailing whitespace. -/
def jsTrim (s : String) : String :=
  ⟨((s.data.dropWhile wsChar).reverse.dropWhile wsChar).reverse⟩

/-- Model of JavaScript `s.split(sep)` for a one-character separator, on
character lists.  `splitOnChar ',' "a,b".data = ["a".data, "b".data]`. -/
def splitOnChar (sep : Char) : List Char → List (List Char)
  | [] => [[]]
  | c :: rest =>
    match splitOnChar sep rest with
    | [] => [[]]
    | h :: t => if c == sep then [] :: h :: t else (c :: h) :: t

/-- `leadsWith p s` is true when the list `s` starts with the pattern `p`. -/
def leadsWith : List Char → List Char → Bool
  | [], _ => true
  | _ :: _, [] => false
  | p :: ps, c :: cs => p == c && leadsWith ps cs

/-- Index of the first occurrence of `pat` as a contiguous sublist of `s`. -/
def findSub (pat : List Char) : List Char → Option Nat
  | [] => if leadsWith pat [] then some 0 else none
  | c :: rest =>
    if leadsWith pat (c :: rest) then some 0
    else (findSub pat rest).map (· + 1)

/-- All start indices (in ascending order) at which `pat` occurs in `s`. -/
def subPositions (pat : List Char) : List Char → List Nat
  | [] => if leadsWith pat [] then [0] else []
  | c :: rest =>
    (if leadsWith pat (c :: rest) then [0] else [])
      ++ (subPositions pat rest).map (· + 1)

/-- Boolean substring test. -/
def occursB (needle hay : String) : Bool :=
  (findSub needle.data hay.data).isSome

/-- `needle` occurs as a contiguous substring of `hay`. -/
def occursIn (needle hay : String) : Prop :=
  ∃ a b : List Char, hay.data = a ++ needle.data ++ b

/-- Digits of a decimal natural number; `none` when the list is empty or
contains a non-digit. -/
def digitsToNat : List Char → Option Nat
  | [] => none
  | cs => digitsToNatAux cs 0
where
  digitsToNatAux : List Char → Nat → Option Nat
    | [], acc => some acc
    | c :: rest, acc =>
      if c.isDigit then digitsToNatAux rest (acc * 10 + (c.toNat - '0'.toNat))
      else none

/-- Model of JavaScript `Number(s)` restricted to the values that can equal a
diff line number: returns `some n` when the (trimmed) string denotes the
integer `n` — optionally signed digits, optionally followed by a fraction
consisting only of zeros (`"4.0"` is the JS number `4`) — and `some 0` for a
blank string (JS `Number("") = 0`).  All other inputs (`NaN`, non-integral
values, exponent or hexadecimal notation) are modelled as `none`, which makes
them equal to no change's line number, exactly as `NaN` and non-integral
numbers compare in JS. -/
def jsNumber (s : String) : Option Int :=
  let t := (jsTrim s).data
  match t with
  | [] => some 0
  | '-' :: rest => (jsNumberDigits rest).map (fun n => -(n : Int))
  | '+' :: rest => (jsNumberDigits rest).map (fun n => (n : Int))
  | _ => (jsNumberDigits t).map (fun n => (n : Int))
where
  /-- digits, optionally followed by `.` and one or more zeros -/
  jsNumberDigits (cs : List Char) : Option Nat :=
    let intPart := cs.takeWhile Char.isDigit
    let rest := cs.drop intPart.length
    match intPart, rest with
    | [], _ => none
    | _, [] => digitsToNat intPart
    | _, '.' :: frac =>
      if frac ≠ [] && frac.all (· == '0') then digitsToNat intPart else none
    | _, _ => none

/-! ### Data model

`parse-diff` (external collaborator) returns per-file entries with chunks of
line-change records.  A change record is one of three shapes: a context line
(`normal`, fields `ln1`/`ln2`), an added line (`add`, field `ln` = new-side
number) or a deleted line (`del`, field `ln` = old-side number).  The scripts
probe these records duck-typed, via `'ln' in c` / `'ln2' in c`; the accessors
`Change.lnField` / `Change.ln2Field` model those probes. -/

inductive Change where
  | normal (ln1 ln2 : Int) (content : String)
  | add (ln : Int) (content : String)
  | del (ln : Int) (content : String)
deriving DecidableEq

/-- The `ln` field when present (`'ln' in c`): defined for `add` (new-side
line) and `del` (old-side line) records. -/
def Change.lnField : Change → Option Int
  | .add ln _ => some ln
  | .del ln _ => some ln
  | .normal _ _ _ => none

/-- The `ln2` field when present (`'ln2' in c`): defined for `normal` records
(new-side line). -/
def Change.ln2Field : Change → Option Int
  | .normal _ ln2 _ => some ln2
  | _ => none

/-- The raw text of the change line. -/
def Change.content : Change → String
  | .normal _ _ s => s
  | .add _ s => s
  | .del _ s => s

/-- The new-side line number of a change, when it has one (spec vocabulary:
additions and context lines do, deletions do not). -/
def Change.newLine : Change → Option Int
  | .add ln _ => some ln
  | .normal _ ln2 _ => some ln2
  | .del _ _ => none

/-- The old-side line number of a change, when it has one (deletions and
context lines do, additions do not). -/
def Change.oldLine : Change → Option Int
  | .del ln _ => some ln
  | .normal ln1 _ _ => some ln1
  | .add _ _ => none

structure Chunk where
  content : String
  changes : List Change
deriving DecidableEq

structure File where
  «to» : Option String
  chunks : List Chunk
deriving DecidableEq

structure PRDetails where
  owner : String
  repo : String
  pull_number : Int
  title : String
  description : String
deriving DecidableEq

structure Comment where
  body : String
  path : String
  line : Int
deriving DecidableEq

/-- A review item as typed in the newer variant:
`{lineNumber: string; reviewComment: string}`. -/
structure ReviewItem where
  lineNumber : String
  reviewComment : String
deriving DecidableEq

/-- JS template-literal interpolation of a `string | undefined` value:
`undefined` prints as `"undefined"`. -/
def jsShowOptStr : Option String → String
  | some s => s
  | none => "undefined"

/-- JS truthiness of `file.to : string | undefined` (`!file.to`): falsy when
`undefined` or the empty string. -/
def jsFalsyFileTo : Option String → Bool
  | none => true
  | some s => s == ""

/-! ### JSON

Model of the JavaScript `JSON.parse` builtin (external to the scripts), used
by `getAIResponse`.  A number keeps its source lexeme; `itemOfJson` below
interprets it when a review item's `lineNumber` arrives as a JSON number. -/

inductive Json where
  | null
  | bool (b : Bool)
  | num (lexeme : String)
  | str (s : String)
  | arr (elems : List Json)
  | obj (fields : List (String × Json))

/-- Drop insignificant JSON whitespace. -/
def skipWsJ (cs : List Char) : List Char :=
  cs.dropWhile wsChar

/-- Value of a hexadecimal digit, by codepoint arithmetic. -/
def hexVal (c : Char) : Option Nat :=
  let n := c.toNat
  if 48 ≤ n && n ≤ 57 then some (n - 48)
  else if 97 ≤ n && n ≤ 102 then some (n - 87)
  else if 65 ≤ n && n ≤ 70 then some (n - 55)
  else none

/-- Body of a JSON string, after the opening quote; returns the decoded
characters and the input remaining after the closing quote. -/
def parseStringBody : List Char → Option (List Char × List Char)
  | [] => none
  | '"' :: rest => some ([], rest)
  | '\\' :: e :: rest =>
    match e with
    | '"' => (parseStringBody rest).map (fun p => ('"' :: p.1, p.2))
    | '\\' => (parseStringBody rest).map (fun p => ('\\' :: p.1, p.2))
    | '/' => (parseStringBody rest).map (fun p => ('/' :: p.1, p.2))
    | 'b' => (parseStringBody rest).map (fun p => ('\x08' :: p.1, p.2))
    | 'f' => (parseStringBody rest).map (fun p => ('\x0c' :: p.1, p.2))
    | 'n' => (parseStringBody rest).map (fun p => ('\n' :: p.1, p.2))
    | 'r' => (parseStringBody rest).map (fun p => ('\r' :: p.1, p.2))
    | 't' => (parseStringBody rest).map (fun p => ('\t' :: p.1, p.2))
    | 'u' =>
      match rest with
      | a :: b :: c :: d :: rest' =>
        match hexVal a, hexVal b, hexVal c, hexVal d with
        | some ha, some hb, some hc, some hd =>
          let n := ((ha * 16 + hb) * 16 + hc) * 16 + hd
          let ch := if 55296 ≤ n ∧ n < 57344 then '�' else Char.ofNat n
          (parseStringBody rest').map (fun p => (ch :: p.1, p.2))
        | _, _, _, _ => none
      | _ => none
    | _ => none
  | c :: rest =>
    if c.toNat < 32 then none
    else (parseStringBody rest).map (fun p => (c :: p.1, p.2))

/-- Lexeme of a JSON number (grammar: `-? (0 | [1-9][0-9]*) frac? exp?`);
returns the lexeme characters and the remaining input. -/
def parseNumberLex (cs0 : List Char) : Option (List Char × List Char) :=
  let (sign, cs1) := match cs0 with
    | '-' :: r => (['-'], r)
    | _ => (([] : List Char), cs0)
  match cs1 with
  | '0' :: r => afterInt (sign ++ ['0']) r
  | c :: _ =>
    if c.isDigit then
      let ds := cs1.takeWhile Char.isDigit
      afterInt (sign ++ ds) (cs1.drop ds.length)
    else none
  | [] => none
where
  afterExp (lex : List Char) (r : List Char) : Option (List Char × List Char) :=
    match r with
    | 'e' :: r1 => expTail (lex ++ ['e']) r1
    | 'E' :: r1 => expTail (lex ++ ['E']) r1
    | _ => some (lex, r)
  expTail (lex : List Char) (r : List Char) : Option (List Char × List Char) :=
    let (s, r1) := match r with
      | '+' :: r' => (['+'], r')
      | '-' :: r' => (['-'], r')
      | _ => (([] : List Char), r)
    let ds := r1.takeWhile Char.isDigit
    if ds = [] then none
    else some (lex ++ s ++ ds, r1.drop ds.length)
  afterInt (lex : List Char) (r : List Char) : Option (List Char × List Char) :=
    match r with
    | '.' :: r1 =>
      let ds := r1.takeWhile Char.isDigit
      if ds = [] then none
      else afterExp (lex ++ '.' :: ds) (r1.drop ds.length)
    | _ => afterExp lex r

mutual

/-- Recursive-descent JSON value parser; `fuel` bounds the recursion depth and
the number of aggregate elements, and is chosen large enough in `parseJson`
that it never runs out on any input string. -/
def parseValue : Nat → List Char → Option (Json × List Char)
  | 0, _ => none
  | fuel + 1, cs0 =>
    match skipWsJ cs0 with
    | 'n' :: 'u' :: 'l' :: 'l' :: rest => some (.null, rest)
    | 't' :: 'r' :: 'u' :: 'e' :: rest => some (.bool true, rest)
    | 'f' :: 'a' :: 'l' :: 's' :: 'e' :: rest => some (.bool false, rest)
    | '"' :: rest => (parseStringBody rest).map (fun p => (.str ⟨p.1⟩, p.2))
    | '\x7b' :: rest => parseObjFields fuel (skipWsJ rest) []
    | '[' :: rest => parseArrayItems fuel (skipWsJ rest) []
    | cs => (parseNumberLex cs).map (fun p => (.num ⟨p.1⟩, p.2))

/-- Elements of a JSON array, after `[` (whitespace skipped); `acc` holds the
elements parsed so far, in reverse. -/
def parseArrayItems : Nat → List Char → List Json → Option (Json × List Char)
  | 0, _, _ => none
  | fuel + 1, cs, acc =>
    match cs with
    | ']' :: rest => if acc.isEmpty then some (.arr [], rest) else none
    | _ =>
      match parseValue fuel cs with
      | none => none
      | some (v, r) =>
        match skipWsJ r with
        | ',' :: r' => parseArrayItems fuel (skipWsJ r') (v :: acc)
        | ']' :: r' => some (.arr (v :: acc).reverse, r')
        | _ => none

/-- Members of a JSON object, after the opening brace (whitespace skipped);
`acc` holds the members parsed so far, in reverse. -/
def parseObjFields : Nat → List Char → List (String × Json) →
    Option (Json × List Char)
  | 0, _, _ => none
  | fuel + 1, cs, acc =>
    match cs with
    | '\x7d' :: rest => if acc.isEmpty then some (.obj [], rest) else none
    | '"' :: rest =>
      match parseStringBody rest with
      | none => none
      | some (key, r) =>
        match skipWsJ r with
        | ':' :: r1 =>
          match parseValue fuel (skipWsJ r1) with
          | none => none
          | some (v, r2) =>
            match skipWsJ r2 with
            | ',' :: r3 => parseObjFields fuel (skipWsJ r3) ((⟨key⟩, v) :: acc)
            | '\x7d' :: r3 => some (.obj ((⟨key⟩, v) :: acc).reverse, r3)
            | _ => none
        | _ => none
    | _ => none

end

/-- Model of `JSON.parse`: the whole input (up to surrounding whitespace) must
be one JSON value. -/
def parseJson (s : String) : Option Json :=
  match parseValue (2 * s.data.length + 2) s.data with
  | some (j, rest) => if skipWsJ rest = [] then some j else none
  | none => none

/-- JS property access `j.key` on a parsed JSON value: `none` models
`undefined` (missing key or non-object receiver).  With duplicate keys
`JSON.parse` keeps the last occurrence. -/
def Json.getField (j : Json) (key : String) : Option Json :=
  match j with
  | .obj fields => (fields.reverse.find? (fun f => f.1 == key)).map (fun f => f.2)
  | _ => none

/-! ### Extracting the model's JSON payload -/

/-- Model of `res.match(/```json([\s\S]*)```/)?.[1]`: the capture group of the
first (leftmost, greedy) match.  The leftmost match starts at the first
occurrence of the literal `"```json"`; the greedy `[\s\S]*` then extends the
capture to the last occurrence of `"```"` in the rest of the string (any later
occurrence of `"```json"` itself supplies a closing `"```"`, so searching from
the first opener is exactly the regex's leftmost-match rule). -/
def extractCodeBlock (s : String) : Option String :=
  let cs := s.data
  match findSub "```json".data cs with
  | none => none
  | some p =>
    let after := cs.drop (p + 7)
    match (subPositions "```".data after).getLast? with
    | none => none
    | some q => some ⟨after.take q⟩

/-- One element of the parsed `reviews` array, read the way the scripts use
it: `lineNumber` feeds `Number(...)` (a JSON string keeps its text, a JSON
number its lexeme; any other shape, including a missing key, behaves as `NaN`
— modelled by the non-numeric text `"NaN"`); `reviewComment` is used as a
string (non-strings are not exercised by the scripts and are modelled as
the interpolation of a missing field, the empty string). -/
def itemOfJson (j : Json) : ReviewItem :=
  { lineNumber :=
      match j.getField "lineNumber" with
      | some (.str s) => s
      | some (.num lex) => lex
      | _ => "NaN"
    reviewComment :=
      match j.getField "reviewComment" with
      | some (.str s) => s
      | _ => "" }

/-- The `reviews` value as the item list the scripts iterate over.  A
non-array value is modelled as contributing no items (in JS a truthy
non-array would instead crash the run; no claim concerns that corner). -/
def jsonToItems : Json → List ReviewItem
  | .arr xs => xs.map itemOfJson
  | _ => []

/-- Embedding of the newer variant's `getAIResponse` (src/main.ts), from the
model response onward.  The argument is the chat completion's message
content: `none` models a failed API call (the outer `try`/`catch` — the
function logs and returns `null`); `some raw` a successful call whose content
is `raw` (a missing content field is `some ""` via `?.trim() || ""`).
The body mirrors the source: trim, extract a ```json fenced block, OTHERWISE
fall back to the whole response, reject empty content, `JSON.parse` inside
`try`/`catch`, take `.reviews`.  A parse failure or a missing `reviews` key
yields `none` (the source returns `null`/`undefined`; both are falsy to the
caller's `if (aiResponse)`). -/
def getAIResponse (content : Option String) : Option (List ReviewItem) :=
  match content with
  | none => none
  | some raw =>
    let res := jsTrim raw
    let jsonContent :=
      match extractCodeBlock res with
      | some captured => captured
      | none => res
    if jsonContent == "" then none
    else
      match parseJson jsonContent with
      | none => none
      | some j =>
        match j.getField "reviews" with
        | none => none
        | some r => some (jsonToItems r)

/-! ### Prompt Builder (newer variant) -/

/-- The per-line annotation in the prompt's diff block:
`${'ln' in c ? c.ln : 'ln2' in c ? c.ln2 : ''} ${c.content}`. -/
def changeAnnotation (c : Change) : String :=
  (match c.lnField with
   | some v => toString v
   | none =>
     match c.ln2Field with
     | some v => toString v
     | none => "") ++ " " ++ c.content

/-- JS `Array.prototype.join("\n")`. -/
def joinLines : List String → String
  | [] => ""
  | [s] => s
  | s :: rest => s ++ "\n" ++ joinLines rest

/-- `chunk.changes.map(...).join("\n")` in the prompt templates. -/
def annotatedChanges (chunk : Chunk) : String :=
  joinLines (chunk.changes.map changeAnnotation)

/-- The Ruby-on-Rails guideline text of the newer variant (src/main.ts),
transcribed verbatim. -/
def getRailsGuidelines  : String :=
  "\n- Avoid Environment Specific Code:\n  Developer contributes the code that behaves consis"
    ++ "tently. So that code contribution is supposed to be working from every environment.\n  Exa"
    ++ "mple:\n  This has to be configurable value instead of hard coded with Rails environment:\n"
    ++ "  ```ruby\n  from_address = Rails.env.production_shiji? ? \x27StayNTouch@notice.shijicloud"
    ++ ".com\x27 : \x27no-reply@stayntouch.com\x27\n  ```\n\n- Legacy Code Review:\n  There is a c"
    ++ "hance to have the wrong original approach that can be implemented in the past. There are a"
    ++ " few patterns you need to pay attention to when you contribute or review the code.\n  - Av"
    ++ "oid Hard-coded values for configurable or has security risk into repo (e.g.: infrastructur"
    ++ "e information, credential, 3rd party vendor\x27s token).\n  - Code contribution is suppose"
    ++ "d to be working from every environment.\n  - Unused code or canceled implementations are s"
    ++ "upposed to be cleaned up.\n  - When you find suspicious code communicate with co-developer"
    ++ "s and QA to review and make a refactoring plan.\n\n- Code Style:\n  Follow the community-d"
    ++ "riven Ruby Style Guide and the complementary Rails Style Guide. Use the Rubocop gem and ed"
    ++ "itor plugin to guide development within these rules.\n\n- Object Oriented Programming:\n  "
    ++ "Follow the principles of this methodology, including the popular SOLID design principles:\n"
    ++ "  - Single-responsibility principle: A class should only have a single responsibility.\n  "
    ++ "- Open\u00e2\u20ac\u201cclosed principle: Software entities should be open for extension b"
    ++ "ut closed for modification.\n  - Liskov substitution principle: Objects in a program shoul"
    ++ "d be replaceable with instances of their subtypes without altering the correctness of that"
    ++ " program.\n  - Interface segregation principle: Many client-specific interfaces are better"
    ++ " than one general-purpose interface.\n  - Dependency inversion principle: Depend upon abst"
    ++ "ractions, not concretions.\n\n- Methods:\n  Methods should be concise and are subject to A"
    ++ "BC (assignments, branches, and conditions) metric for enforcement. Some options for reduci"
    ++ "ng complexity include:\n  - Guard clauses\n  - Exit gates for conditional returns\n  - Pol"
    ++ "ymorphism\n  - ConsolidateConditional refactoring of multiple branch conditions\n  - Decom"
    ++ "poseConditional refactoring to extract boolean expressions to dedicated methods for reuse\n"
    ++ "  - Dedicated libraries for deep decision trees with many conditions and possible response"
    ++ "s\n  - Conditional patterns can use a Strategy pattern with a Hash of Lambdas\n\n- Variabl"
    ++ "es:\n  The purpose of a variable is to know things. Within an object, the purpose of a var"
    ++ "iable will drive what the scope should be of that variable. When defining instance level v"
    ++ "ariables in a method, the purpose should be to either manipulate an already existing prope"
    ++ "rty of that class object or set a property. It should not be used simply to avoid passing "
    ++ "arguments to a method within the same instance.\n\n- File structure:\n  - app/: This direc"
    ++ "tory holds all domain-specific code. If it applies to our business domain, it should be un"
    ++ "der this directory.\n  - lib/: This directory is for anything that is not domain-specific."
    ++ " Any code in this directory should be generic Ruby and not dependent on our application.\n"
    ++ "\n- Keyword Arguments vs Option Hashes:\n  Use keyword arguments instead of option hashes "
    ++ "for better readability and maintainability.\n  Example:\n  ```ruby\n  # bad\n  def some_me"
    ++ "thod(options = \x7b\x7d)\n    bar = options.fetch(:bar, false)\n    puts bar\n  end\n  # g"
    ++ "ood\n  def some_method(bar: false)\n    puts bar\n  end\n  ```\n\n- Optional argument pass"
    ++ "ing:\n  A function is a block of organized, reusable code that is used to perform a single"
    ++ ", related action. Functions provide better modularity for your application and a high degr"
    ++ "ee of code reusing. The following code does not follow that principle:\n  ```ruby\n  # bad"
    ++ "\n  def make_cc_payment(options)\n    opts = options[:opts]\n    amount = options[:amount]"
    ++ ".to_f\n    payment_method = options[:credit_card]\n    is_emv_request = options[:is_emv_re"
    ++ "quest]\n    request_options = \x7b\n      amount: amount,\n      source: self,\n      paym"
    ++ "ent_method: payment_method,\n      type: is_emv_request == true ? \x27sale_terminal\x27 : "
    ++ "\x27sale\x27,\n      checkin_date: arrival_date,\n      checkout_date: dep_date,\n      ro"
    ++ "om_rate: average_rate_amount,\n      guest_name: cc_guest_name,\n      currency_code: hote"
    ++ "l.default_currency.try(:value),\n      swiped_card: opts[:card_data],\n      workstation: "
    ++ "options[:workstation],\n      credit_card_transaction_id: opts[:credit_card_transaction_id"
    ++ "],\n      auth_code: options[:auth_code]\n    \x7d\n    add_auth_and_settlement_options(op"
    ++ "tions, request_options)\n    hotel.cc_payment_processor(payment_method).process(request_op"
    ++ "tions)\n  end\n  ```\n\n- Consistent Classes:\n  Follow a consistent structure for class d"
    ++ "efinitions.\n  Example:\n  ```ruby\n  class Person\n    # extend and include go first\n   "
    ++ " extend SomeModule\n    include AnotherModule\n\n    # inner classes\n    CustomError = Cl"
    ++ "ass.new(StandardError)\n\n    # constants are next\n    SOME_CONSTANT = 20\n\n    # afterw"
    ++ "ards we have attribute macros\n    attr_reader :name\n\n    # followed by association macr"
    ++ "os\n    belongs_to :country\n    has_many :authentications, dependent: :destroy\n\n    # a"
    ++ "nd validation macros\n    validates :name\n\n    # next we have callbacks\n    before_save"
    ++ " :cook\n    before_save :update_username_lower\n\n    # other macros should be placed afte"
    ++ "r the callbacks\n    has_enumerated :enum_attr\n    accepts_nested_attributes_for :somethi"
    ++ "ng\n\n    # scopes\n    scope :company_cards, -> \x7b with_account_type(:COMPANY) \x7d\n\n"
    ++ "    # public class methods are next in line\n    def self.some_method\n    end\n\n    # in"
    ++ "itialization goes between class methods and other instance methods\n    def initialize\n  "
    ++ "  end\n\n    # followed by other public instance methods\n    def some_method\n    end\n\n"
    ++ "    # protected and private methods are grouped near the end\n    protected\n    def some_"
    ++ "protected_method\n    end\n\n    private\n    def some_private_method\n    end\n  end\n  `"
    ++ "``\n\n- Service Layer:\n  The service layer should be used to store all model-related busi"
    ++ "ness logic for the application. No business logic should be present in the controller, job"
    ++ ", model, or view any further. These layers should be used as follows:\n  - Controller: Acc"
    ++ "epts the request, extracts parameters, calls services, manipulates models (simple queries "
    ++ "only), renders response.\n  - Job: Used by resque background jobs. Calls services and mani"
    ++ "pulates models.\n  - Model: Defines attributes, associations, scopes, and simple instance "
    ++ "methods to format the data.\n  - View: Translates the model data and service output into r"
    ++ "esponse attributes.\n  - Service: Uses models and other services to implement business log"
    ++ "ic for a single operation.\n\n- When to Use a Service:\n  If any of the following are true"
    ++ ":\n  - The operation relates to a domain concept that is not a natural part of an Entity o"
    ++ "r Value Object\n  - The interface is defined in terms of other elements in the domain mode"
    ++ "l\n  - The operation is stateless\n  - Complex finder logic\n\n  Examples: Check In Reserv"
    ++ "ation, Check Out Reservation, Create Reservation, Change Stay Dates, Make Payment, Reserva"
    ++ "tionFinder, etc.\n\n- When Not to Use a Service:\n  If any of the following are true:\n  -"
    ++ " Simple one-line read/write queries via ActiveRecord\n  - Converting Controller / Job attr"
    ++ "ibutes to what the service needs\n  - Simple model scopes are generally better suited to s"
    ++ "tore the reusable query condition\n  - Custom model methods can be used to convert an attr"
    ++ "ibute\n  - View objects (serializers, jbuilder) can be used to render the controller respo"
    ++ "nse\n  - When the logic is a general utility and does not include any business logic, this"
    ++ " should be a lib\n\n  Examples: Get reservation by id, staycard view object, sum values\n\n"
    ++ "- Migrating to a Service:\n  - Analyze the code for all entry points into the feature, inc"
    ++ "luding controllers, resque jobs, and sneakers jobs.\n  - Document the entry points and pro"
    ++ "cesses.\n  - Discuss with an architect and product owner.\n  - Implement the service.\n  -"
    ++ " Write test cases.\n  - Move all entry points to use the service.\n  - Remove all existing"
    ++ " duplicated code.\n\n- Service Conventions:\n  - Gemfile: Ensure the snt gem from the rove"
    ++ "r-common repo is included.\n  - Directory & Filename: Services should be under app/service"
    ++ "s with class names ending in Service.\n  - Calling a Service: Initialize an instance and c"
    ++ "all the \"call\" method.\n  - Stateless: Each service should be stateless and object-orien"
    ++ "ted.\n  - Base Class: All services must extend from SNT::Core::Services::Base.\n\n- Loggin"
    ++ "g:\n  Logs should be informative and useful, but should not be too repetitive or long. Log"
    ++ " any important keywords that would help search for it. Choose an appropriate logging level"
    ++ " (debug, info, warn, error, or fatal) that correctly describes the scenario at hand.\n\n- "
    ++ "Rake Tasks:\n  Add logger/puts to print the total time taken to run the rake task. Run the"
    ++ " rake task in prod-test environment and update the details in the JIRA ticket.\n\n- Seeds:"
    ++ "\n  All production-ready reference data should be inserted via seeds. Seeds should be popu"
    ++ "lated during \"test:prepare\" rake task. Ensure that seeds do not duplicate data nor fail "
    ++ "if data is already present.\n\n- Database Performance:\n  - Avoid N+1 queries.\n  - Use th"
    ++ "e bullet gem to help identify the N+1 queries.\n  - Use the Rails ActiveRecord method incl"
    ++ "udes to pre-load the associations in one query.\n  - Consolidate repetitive queries into o"
    ++ "ne query by joining tables and selecting appropriate columns.\n  - Avoid full table scans "
    ++ "by adding an index or updating the query to use an existing index.\n  - Bulk insert/update"
    ++ "/delete many changes in a single SQL statement and avoid N+1 writes.\n  - Use the activere"
    ++ "cord-import gem to insert many records in bulk.\n  - Batch the writes to avoid a SQL state"
    ++ "ment that is too big.\n  - Throttle batch writes with a short delay to avoid replication l"
    ++ "ag.\n  - Load test the changes with the maximum expected data.\n\n- Safe Migrations:\n  - "
    ++ "Avoid models in migrations.\n  - Use plain SQL to avoid conflicts with changes to the mode"
    ++ "l that occur after the migration was created.\n  - Use LHM to migrate certain schema chang"
    ++ "es to avoid table locking.\n  - Always commit structure.sql schema changes.\n  - Avoid loo"
    ++ "ping in migrations.\n  - Use decimal(10,2) for amounts.\n  - Notify architects & release t"
    ++ "eam of long migrations.\n    "

/-- The newer variant's prompt template literal, with each `${...}`
interpolation point as a parameter, transcribed verbatim. -/
def mainPromptTemplate (FRAMEWORK : String) (guidelines : String) (fileTo : String) (title : String) (description : String) (chunkContent : String) (annotated : String) : String :=
  "Your task is to review pull requests for "
  ++ (FRAMEWORK
   ++ ((" code. Instructions:\n- Provide the response in the following JSON format:  \x7b\"review"
      ++ "s\": [\x7b\"lineNumber\":  <line_number>, \"reviewComment\": \"<review comment>\"\x7d]\x7d"
      ++ "\n- Do not give positive comments or compliments.\n- Provide comments and suggestions ON"
      ++ "LY if there is something to improve, otherwise \"reviews\" should be an empty array.\n- "
      ++ "Write the comment in GitHub Markdown format.\n- Use the given description only for the o"
      ++ "verall context and only comment on the code.\n- IMPORTANT: NEVER suggest adding comments"
      ++ " to the code.\n")
    ++ (guidelines
     ++ ("\n\nReview the following code diff in the file \""
      ++ (fileTo
       ++ (("\" and take the pull request title and description into account when writing the respons"
          ++ "e.\n  \nPull request title: ")
        ++ (title
         ++ ("\nPull request description:\n\n---\n"
          ++ (description
           ++ ("\n---\n\nGit diff to review:\n\n```diff\n"
            ++ (chunkContent
             ++ ("\n"
              ++ (annotated
               ++ ("\n```\n"))))))))))))))
/-- Embedding of the newer variant's `createPrompt`; `FRAMEWORK` is the
module-level configuration input.  A JS template literal prints an undefined
`file.to` as `"undefined"`. -/
def createPrompt (FRAMEWORK : String) (file : File) (chunk : Chunk)
    (prDetails : PRDetails) : String :=
  let guidelines :=
    if FRAMEWORK == "Ruby on Rails" then getRailsGuidelines else ""
  mainPromptTemplate FRAMEWORK guidelines (jsShowOptStr file.«to»)
    prDetails.title prDetails.description chunk.content (annotatedChanges chunk)


/-! ### Comment Mapper (`createComment`, newer variant) -/

/-- The predicate of the `chunk.changes.find(...)` callback in
`createComment`: the claimed number equals the change's `ln` field (if any)
or its `ln2` field (if any).  A `none` claimed number models `NaN`, which
compares equal to nothing. -/
def matchesLine (lineNumber : Option Int) (c : Change) : Bool :=
  (match c.lnField, lineNumber with
   | some v, some n => v == n
   | _, _ => false) ||
  (match c.ln2Field, lineNumber with
   | some v, some n => v == n
   | _, _ => false)

/-- `"ln" in change ? change.ln : "ln2" in change ? change.ln2 : 0` -/
def commentLineOf (c : Change) : Int :=
  match c.lnField with
  | some v => v
  | none =>
    match c.ln2Field with
    | some v => v
    | none => 0

/-- One `flatMap` step of `createComment`: the emitted comments (zero or one)
together with the `console.error` diagnostics (zero or one). -/
def createCommentOne (file : File) (chunk : Chunk) (aiResponse : ReviewItem) :
    List Comment × List String :=
  if jsFalsyFileTo file.«to» then ([], [])
  else
    match chunk.changes.find?
        (fun c => matchesLine (jsNumber aiResponse.lineNumber) c) with
    | none =>
      ([], ["Line number " ++ aiResponse.lineNumber
              ++ " not found in the diff for file " ++ jsShowOptStr file.«to»])
    | some change =>
      ([{ body := aiResponse.reviewComment
          path := jsShowOptStr file.«to»
          line := commentLineOf change }], [])

/-- Embedding of the newer variant's `createComment`, with `console.error`
output modelled as the second component. -/
def createCommentLogged (file : File) (chunk : Chunk) :
    List ReviewItem → List Comment × List String
  | [] => ([], [])
  | item :: rest =>
    let first := createCommentOne file chunk item
    let later := createCommentLogged file chunk rest
    (first.1 ++ later.1, first.2 ++ later.2)

/-- The comments returned by `createComment`. -/
def createComment (file : File) (chunk : Chunk) (items : List ReviewItem) :
    List Comment :=
  (createCommentLogged file chunk items).1

/-! ### Deduplicator and `analyzeCode` (newer variant) -/

/-- The duplicate test inlined in `analyzeCode`: some existing PR review
comment has the same path, the same line, and the same trimmed body. -/
def isDuplicate (existingComments : List Comment) (comment : Comment) : Bool :=
  existingComments.any (fun existingComment =>
    existingComment.path == comment.path &&
    existingComment.line == comment.line &&
    jsTrim existingComment.body == jsTrim comment.body)

/-- The inner `for (const comment of newComments)` loop of `analyzeCode`:
push each non-duplicate new comment, skip duplicates. -/
def dedupNew (existingComments : List Comment) : List Comment → List Comment
  | [] => []
  | comment :: rest =>
    if isDuplicate existingComments comment then dedupNew existingComments rest
    else comment :: dedupNew existingComments rest

/-- Per-chunk step of `analyzeCode`: build the prompt, query the model
(`ai` is the oracle for the blocking completion call, `FRAMEWORK` the
module-level configuration input), and on a non-null response map and
deduplicate the items. -/
def chunkStep (FRAMEWORK : String) (file : File) (chunk : Chunk)
    (prDetails : PRDetails) (existingComments : List Comment)
    (ai : String → Option (List ReviewItem)) : List Comment :=
  match ai (createPrompt FRAMEWORK file chunk prDetails) with
  | none => []
  | some items => dedupNew existingComments (createComment file chunk items)

/-- The chunk loop of `analyzeCode` for one file. -/
def analyzeChunks (FRAMEWORK : String) (file : File) (prDetails : PRDetails)
    (existingComments : List Comment)
    (ai : String → Option (List ReviewItem)) : List Chunk → List Comment
  | [] => []
  | chunk :: rest =>
    chunkStep FRAMEWORK file chunk prDetails existingComments ai
      ++ analyzeChunks FRAMEWORK file prDetails existingComments ai rest

/-- Embedding of the newer variant's `analyzeCode`: skip deleted files
(`file.to === "/dev/null"`), process chunks in order, accumulating the
deduplicated comments. -/
def analyzeCode (FRAMEWORK : String) (parsedDiff : List File)
    (prDetails : PRDetails) (existingComments : List Comment)
    (ai : String → Option (List ReviewItem)) : List Comment :=
  match parsedDiff with
  | [] => []
  | file :: rest =>
    (if file.«to» == some "/dev/null" then []
     else analyzeChunks FRAMEWORK file prDetails existingComments ai file.chunks)
      ++ analyzeCode FRAMEWORK rest prDetails existingComments ai

/-! ### Existing-comment ledger (`getExistingComments`) -/

/-- A review comment as returned by `octokit.pulls.listReviewComments`: the
`line` field is absent (`undefined`) for outdated or file-level comments. -/
structure RawReviewComment where
  path : String
  line : Option Int
  body : String
deriving DecidableEq

/-- Embedding of `getExistingComments` from the API response onward: keep
only comments whose `line` is defined (`comment.line !== undefined`) and
project to `{path, line, body}`. -/
def getExistingComments (data : List RawReviewComment) : List Comment :=
  (data.filter (fun comment => comment.line.isSome)).map
    (fun comment =>
      { path := comment.path, line := comment.line.getD 0, body := comment.body })

/-! ### Publisher (`createReviewComment`, newer variant) -/

/-- One `octokit.pulls.createReviewComment` request payload. -/
structure ReviewCommentRequest where
  owner : String
  repo : String
  pull_number : Int
  body : String
  path : String
  line : Int
  side : String
  commit_id : String
deriving DecidableEq

/-- The `validComments` filter of the newer variant's `createReviewComment`:
`comment.path && comment.line > 0 && comment.body.trim() !== ""`
(`comment.path` is a string, truthy exactly when non-empty). -/
def validComment (comment : Comment) : Bool :=
  !(comment.path == "") && decide (0 < comment.line) && !(jsTrim comment.body == "")

/-- Embedding of the newer variant's `createReviewComment`.  Each surviving
comment is posted individually inside its own `try`/`catch`; `fails` is the
oracle saying which individual posts throw.  The result records every
attempted request together with whether it failed — a failed post is logged
and the loop continues, which is why the attempt for each request is made
regardless of `fails`. -/
def createReviewCommentAttempts (owner repo : String) (pull_number : Int)
    (comments : List Comment) (commit_id : String)
    (fails : ReviewCommentRequest → Bool) :
    List (ReviewCommentRequest × Bool) :=
  let validComments := comments.filter validComment
  if validComments.length = 0 then []
  else
    validComments.map (fun comment =>
      let r : ReviewCommentRequest :=
        { owner := owner, repo := repo, pull_number := pull_number
          body := comment.body, path := comment.path, line := comment.line
          side := "RIGHT", commit_id := commit_id }
      (r, fails r))

/-! ### Exclusion filter

`minimatch` is an external collaborator; it is modelled on its documented
shell-glob semantics for the constructs the Action's `exclude` input uses:
`?` matches one character, `*` a run of characters within one path segment,
and a `**` segment any number of whole segments.  Brace groups, character
classes, extglobs, negation and the dotfile special case are outside the
model. -/

/-- Glob match of one pattern segment against one path segment; `fuel`
bounds the recursion (each step shrinks the combined length of pattern and
text, so `matchSeg` below always supplies enough). -/
def matchSegAux : Nat → List Char → List Char → Bool
  | 0, _, _ => false
  | _ + 1, [], [] => true
  | _ + 1, [], _ :: _ => false
  | fuel + 1, '*' :: ps, [] => matchSegAux fuel ps []
  | fuel + 1, '*' :: ps, t :: ts =>
    matchSegAux fuel ps (t :: ts) || matchSegAux fuel ('*' :: ps) ts
  | _ + 1, '?' :: _, [] => false
  | fuel + 1, '?' :: ps, _ :: ts => matchSegAux fuel ps ts
  | _ + 1, _ :: _, [] => false
  | fuel + 1, p :: ps, t :: ts => p == t && matchSegAux fuel ps ts

/-- Glob match of one pattern segment against one path segment. -/
def matchSeg (p t : List Char) : Bool :=
  matchSegAux (p.length + t.length + 1) p t

/-- Glob match of the segment lists; a `**` pattern segment spans zero or
more path segments (`fuel` as in `matchSegAux`). -/
def matchSegsAux : Nat → List (List Char) → List (List Char) → Bool
  | 0, _, _ => false
  | _ + 1, [], [] => true
  | _ + 1, [], _ :: _ => false
  | fuel + 1, p :: ps, [] => p == ['*', '*'] && matchSegsAux fuel ps []
  | fuel + 1, p :: ps, t :: ts =>
    if p == ['*', '*'] then
      matchSegsAux fuel ps (t :: ts) || matchSegsAux fuel (p :: ps) ts
    else matchSeg p t && matchSegsAux fuel ps ts

/-- Model of `minimatch(path, pattern)`. -/
def minimatch (path pattern : String) : Bool :=
  let ps := splitOnChar '/' pattern.data
  let ts := splitOnChar '/' path.data
  matchSegsAux (ps.length + ts.length + 1) ps ts

/-- `core.getInput("exclude").split(",").map(s => s.trim())`. -/
def excludePatternsOf (excludeInput : String) : List String :=
  (splitOnChar ',' excludeInput.data).map (fun cs => jsTrim ⟨cs⟩)

/-- The `filteredDiff` computation in `main`: drop every file whose path
(`file.to ?? ""`) matches some exclusion pattern. -/
def filterFiles (parsedDiff : List File) (excludeInput : String) : List File :=
  parsedDiff.filter (fun file =>
    !((excludePatternsOf excludeInput).any (fun pattern =>
        minimatch (file.«to».getD "") pattern)))

/-! ### `main` control flow (newer variant) -/

/-- The trigger payload fields `main` reads:
`eventData.action`, `eventData.before`, `eventData.after`,
`eventData.pull_request.head.sha`. -/
structure EventData where
  action : String
  before : String
  after : String
  headSha : String
deriving DecidableEq

/-- The outbound diff request `main` issues. -/
inductive DiffRequest where
  | pullDiff (owner repo : String) (pull_number : Int)
  | compareCommits (owner repo base head : String)
deriving DecidableEq

/-- The event dispatch at the head of `main`: on `"opened"`, fetch the PR
diff and remember `pull_request.head.sha`; on `"synchronize"`, compare the
event's `before` (base) and `after` (head) commits and remember the `after`
SHA; any other action is unsupported and the run exits. -/
def mainDiffRequest (prDetails : PRDetails) (eventData : EventData) :
    Option (DiffRequest × String) :=
  if eventData.action == "opened" then
    some (.pullDiff prDetails.owner prDetails.repo prDetails.pull_number,
          eventData.headSha)
  else if eventData.action == "synchronize" then
    some (.compareCommits prDetails.owner prDetails.repo
            eventData.before eventData.after,
          eventData.after)
  else none

/-- The tail of `main` after `analyzeCode`: publish only when the comment
list is non-empty. -/
def mainPublish (prDetails : PRDetails) (comments : List Comment)
    (commit_id : String) (fails : ReviewCommentRequest → Bool) :
    List (ReviewCommentRequest × Bool) :=
  if comments.length > 0 then
    createReviewCommentAttempts prDetails.owner prDetails.repo
      prDetails.pull_number comments commit_id fails
  else []

/-- Embedding of the newer variant's `main`, from the event dispatch to the
publish calls.  External effects are oracles: `parseDiffFn` the `parse-diff`
library, `diffProvider` the GitHub diff endpoints (`none` = `null` diff),
`ai` the completion endpoint, `fails` the per-request publish outcomes.  The
result is the list of attempted `createReviewComment` requests with their
outcomes. -/
def mainModel (FRAMEWORK : String) (parseDiffFn : String → List File)
    (diffProvider : DiffRequest → Option String) (excludeInput : String)
    (existingComments : List Comment) (ai : String → Option (List ReviewItem))
    (fails : ReviewCommentRequest → Bool) (prDetails : PRDetails)
    (eventData : EventData) : List (ReviewCommentRequest × Bool) :=
  match mainDiffRequest prDetails eventData with
  | none => []
  | some (req, commit_id) =>
    match diffProvider req with
    | none => []
    | some diff =>
      if diff == "" then []
      else
        let parsedDiff := parseDiffFn diff
        let filteredDiff := filterFiles parsedDiff excludeInput
        let comments :=
          analyzeCode FRAMEWORK filteredDiff prDetails existingComments ai
        mainPublish prDetails comments commit_id fails

/-! ### The older variant (`V0`) -/

namespace V0

/-- A review item as typed in the older variant:
`{lineNumber: string; reviewComment: string; optimizedCode: string}`. -/
structure ReviewItem where
  lineNumber : String
  reviewComment : String
  optimizedCode : String
deriving DecidableEq

def getRailsGuidelines  : String :=
  "\n- **Environment Specific Code**: Avoid hard-coding values. Use configuration files or en"
    ++ "vironment variables.\n\n- **Legacy Code**: Remove hard-coded values, clean up unused code,"
    ++ " and ensure cross-environment compatibility.\n\n- **Code Quality**: Adhere to Ruby and Rai"
    ++ "ls Style Guides. Use Rubocop.\n\n- **OOP Principles**: Follow SOLID principles.\n\n- **Met"
    ++ "hods**: Keep methods concise. Use guard clauses and refactoring to reduce complexity.\n\n-"
    ++ " **Variables**: Use clear and descriptive names within appropriate scope.\n\n- **File Stru"
    ++ "cture**: \n  - `app/`: Domain-specific code.\n  - `lib/`: Generic Ruby code.\n\n- **Keywor"
    ++ "d Arguments**: Prefer keyword arguments for readability.\n\n- **Service Layer**: Encapsula"
    ++ "te business logic within services.\n\n- **Database Performance**: Avoid N+1 queries. Use `"
    ++ "includes` or `preload`. Index frequently queried columns and use bulk operations.\n\n- **S"
    ++ "afe Migrations**: Avoid models in migrations. Use plain SQL and commit `structure.sql`. Us"
    ++ "e `LHM` for complex migrations.\n  "

def getAngularGuidelines  : String :=
  "\n- **Component Structure**: Ensure components are small and focused on a single responsib"
    ++ "ility. Follow the Angular style guide for component structure.\n\n- **Module Organization*"
    ++ "*: Organize modules to keep related functionalities together. Use feature modules for dist"
    ++ "inct features.\n\n- **Service Usage**: Use services for business logic and data access. Ke"
    ++ "ep components focused on presentation logic.\n\n- **Reactive Programming**: Prefer the use"
    ++ " of RxJS for asynchronous operations. Ensure proper management of subscriptions to avoid m"
    ++ "emory leaks.\n\n- **Templates**: Keep templates clean and readable. Use Angular directives"
    ++ " (`*ngIf`, `*ngFor`) appropriately.\n\n- **Change Detection**: Optimize change detection b"
    ++ "y using `OnPush` strategy where possible to improve performance.\n\n- **Forms**: Use React"
    ++ "ive Forms for complex forms and Template-driven forms for simpler ones. Ensure proper vali"
    ++ "dation.\n\n- **Routing**: Use the Angular Router for navigation. Ensure routes are organiz"
    ++ "ed and lazy load modules where appropriate.\n\n- **Dependency Injection**: Use Angular\x27"
    ++ "s dependency injection to manage dependencies. Avoid creating instances manually.\n\n- **T"
    ++ "esting**: Ensure comprehensive unit tests for components, services, and other classes. Use"
    ++ " Jasmine and Karma for testing.\n  "

def getAngularJSGuidelines  : String :=
  "\n- **Component Structure**: Ensure components follow a single responsibility principle. O"
    ++ "rganize code using modules.\n\n- **Controller Usage**: Minimize the use of controllers. Pr"
    ++ "efer directives and services.\n\n- **Scope Management**: Avoid excessive use of `$scope`. "
    ++ "Prefer using `controllerAs` syntax and bind properties to the controller.\n\n- **Service U"
    ++ "sage**: Use services and factories for business logic. Keep controllers lean.\n\n- **Templ"
    ++ "ates**: Keep templates clean. Use directives to encapsulate reusable components.\n\n- **De"
    ++ "pendency Injection**: Use AngularJS dependency injection to manage dependencies. Avoid cre"
    ++ "ating instances manually.\n\n- **Performance**: Optimize watchers and digest cycles. Use o"
    ++ "ne-time bindings where possible.\n\n- **Testing**: Ensure comprehensive unit tests for con"
    ++ "trollers, services, and directives. Use Jasmine and Karma for testing.\n  "

def getCypressGuidelines  : String :=
  "\n- **Test Structure**: Organize tests in a logical structure. Use `describe` and `it` blo"
    ++ "cks to structure test cases.\n\n- **Selectors**: Use data attributes for selecting element"
    ++ "s (`data-cy`). Avoid using selectors based on CSS or HTML structure which may change.\n\n-"
    ++ " **Assertions**: Use appropriate assertions to verify application behavior. Avoid excessiv"
    ++ "e assertions in a single test.\n\n- **Test Data**: Use fixtures and factories for test dat"
    ++ "a. Avoid hardcoding data within tests.\n\n- **Commands**: Use custom Cypress commands to r"
    ++ "euse common test logic. \n\n- **Error Handling**: Ensure tests handle errors gracefully an"
    ++ "d provide meaningful error messages.\n\n- **Performance**: Optimize tests to run quickly. "
    ++ "Avoid unnecessary steps and redundant tests.\n\n- **Cross-browser Testing**: Ensure tests "
    ++ "run across different browsers to verify compatibility.\n  "

def getTerraformGuidelines  : String :=
  "\n- **Avoid duplicate review comments**: If the same comment applies to multiple lines wit"
    ++ "hin the same file or across different files, consolidate your feedback and leave a single "
    ++ "comment.\n- **Ignore reviewing commentlines**: Ignore reviewing newly added or edited comm"
    ++ "entlines in the code.\n- **Ignore reviewing boolean variables**: Ignore reviewing boolean "
    ++ "values in YAML config files.\n"

def promptTemplate (FRAMEWORK : String) (guidelines : String) (fileTo : String) (title : String) (description : String) (chunkContent : String) (annotated : String) : String :=
  "Your task is to review a pull request for "
  ++ (FRAMEWORK
   ++ ((" code. Follow these instructions:\n\n- Provide your response in JSON format: \x7b\"revie"
      ++ "ws\": [\x7b\"lineNumber\": <line_number>, \"reviewComment\": \"<review comment>\", \"opt"
      ++ "imizedCode\": \"<optimized code>\"\x7d]\x7d\n- Comment only where there is an issue or a"
      ++ " suggestion for improvement. No positive comments.\n- Use GitHub Markdown format for com"
      ++ "ments.\n- For each issue or suggestion, provide the optimized code snippet.\n- Identify "
      ++ "specific types of issues:\n  - **Security**: Look for vulnerabilities such as SQL inject"
      ++ "ion, XSS, and insecure configurations.\n  - **Performance**: Identify potential performa"
      ++ "nce bottlenecks and suggest optimizations.\n  - **Maintainability**: Ensure the code is "
      ++ "easy to read and maintain. Suggest refactoring if necessary.\n  - **Best Practices**: En"
      ++ "sure adherence to best practices specific to ")
    ++ (FRAMEWORK
     ++ ((" and the overall project.\n  - **Testing**: Verify that the code changes include appropr"
        ++ "iate tests. If not, suggest adding tests.\n  - **Documentation**: Check if the code chan"
        ++ "ges are well-documented. If not, suggest improvements in documentation.\n\n")
      ++ (guidelines
       ++ ("\n\nReview the following code diff in the file \""
        ++ (fileTo
         ++ (("\", considering the pull request title and description for context:\n\nPull request titl"
            ++ "e: ")
          ++ (title
           ++ ("\nPull request description:\n\n---\n"
            ++ (description
             ++ ("\n---\n\nGit diff to review:\n\n```diff\n"
              ++ (chunkContent
               ++ ("\n"
                ++ (annotated
                 ++ ("\n```\n"))))))))))))))))
/-- Embedding of the older variant's `createPrompt`: guideline text selected
by the `FRAMEWORK` configuration input from five framework-specific blocks.
-/
def createPrompt (FRAMEWORK : String) (file : File) (chunk : Chunk)
    (prDetails : PRDetails) : String :=
  let guidelines :=
    if FRAMEWORK == "Ruby on Rails" then getRailsGuidelines
    else if FRAMEWORK == "Angular" then getAngularGuidelines
    else if FRAMEWORK == "AngularJS" then getAngularJSGuidelines
    else if FRAMEWORK == "Cypress" then getCypressGuidelines
    else if FRAMEWORK == "Terraform" then getTerraformGuidelines
    else ""
  promptTemplate FRAMEWORK guidelines (jsShowOptStr file.«to»)
    prDetails.title prDetails.description chunk.content (annotatedChanges chunk)

/-- One element of the older variant's `reviews` array (adds
`optimizedCode`, read as a string like `reviewComment`). -/
def itemOfJson (j : Json) : ReviewItem :=
  { lineNumber :=
      match j.getField "lineNumber" with
      | some (.str s) => s
      | some (.num lex) => lex
      | _ => "NaN"
    reviewComment :=
      match j.getField "reviewComment" with
      | some (.str s) => s
      | _ => ""
    optimizedCode :=
      match j.getField "optimizedCode" with
      | some (.str s) => s
      | _ => "" }

/-- The older variant's `reviews` value as an item list. -/
def jsonToItems : Json → List ReviewItem
  | .arr xs => xs.map itemOfJson
  | _ => []

/-- Embedding of the older variant's `getAIResponse`, from the model
response onward (argument as in the newer variant's embedding).  Unlike the
newer variant there is NO raw-JSON fallback: the source reads
`const jsonContent = res.match(/```json([\s\S]*)```/)?.[1];` and returns
`null` whenever `jsonContent` is undefined or empty. -/
def getAIResponse (content : Option String) : Option (List ReviewItem) :=
  match content with
  | none => none
  | some raw =>
    let res := jsTrim raw
    let jsonContent :=
      match extractCodeBlock res with
      | some captured => captured
      | none => ""
    if jsonContent == "" then none
    else
      match parseJson jsonContent with
      | none => none
      | some j =>
        match j.getField "reviews" with
        | none => none
        | some r => some (jsonToItems r)

end V0

/-! ### Helper lemmas -/

theorem leadsWith_iff : ∀ p s : List Char, leadsWith p s = true ↔ ∃ t, s = p ++ t
  | [], s => by simp [leadsWith]
  | _ :: _, [] => by simp [leadsWith]
  | p :: ps, c :: cs => by
    simp only [leadsWith, Bool.and_eq_true, beq_iff_eq, leadsWith_iff ps cs,
      List.cons_append]
    constructor
    · rintro ⟨rfl, t, rfl⟩
      exact ⟨t, rfl⟩
    · rintro ⟨t, ht⟩
      injection ht with h1 h2
      exact ⟨h1.symm, t, h2⟩

theorem findSub_isSome_iff (pat : List Char) :
    ∀ s : List Char, (findSub pat s).isSome = true ↔ ∃ a b, s = a ++ pat ++ b
  | [] => by
    rw [findSub]
    by_cases h : leadsWith pat [] = true
    · obtain ⟨t, ht⟩ := (leadsWith_iff pat []).mp h
      obtain ⟨hp, _⟩ := List.append_eq_nil.mp ht.symm
      subst hp
      simp [h]
    · rw [if_neg h]
      simp only [Option.isSome_none, Bool.false_eq_true, false_iff]
      rintro ⟨a, b, hab⟩
      obtain ⟨ha, _⟩ := List.append_eq_nil.mp hab.symm
      obtain ⟨_, hp⟩ := List.append_eq_nil.mp ha
      subst hp
      exact h ((leadsWith_iff [] []).mpr ⟨[], rfl⟩)
  | c :: rest => by
    rw [findSub]
    by_cases h : leadsWith pat (c :: rest) = true
    · obtain ⟨t, ht⟩ := (leadsWith_iff pat (c :: rest)).mp h
      simp only [h, if_true, Option.isSome_some, true_iff]
      exact ⟨[], t, by simpa using ht⟩
    · rw [if_neg h]
      have hmap : ((findSub pat rest).map (· + 1)).isSome = (findSub pat rest).isSome := by
        cases findSub pat rest <;> rfl
      rw [hmap, findSub_isSome_iff pat rest]
      constructor
      · rintro ⟨a, b, rfl⟩
        exact ⟨c :: a, b, rfl⟩
      · rintro ⟨a, b, hab⟩
        cases a with
        | nil =>
          exact absurd ((leadsWith_iff pat (c :: rest)).mpr ⟨b, by simpa using hab⟩) h
        | cons a' as =>
          injection hab with _ h2
          exact ⟨as, b, h2⟩

theorem occursB_iff (needle hay : String) :
    occursB needle hay = true ↔ occursIn needle hay :=
  findSub_isSome_iff needle.data hay.data

theorem occursIn_left {needle x : String} (y : String) (h : occursIn needle x) :
    occursIn needle (x ++ y) := by
  obtain ⟨a, b, hab⟩ := h
  exact ⟨a, b ++ y.data, by simp [hab]⟩

theorem occursIn_right {needle y : String} (x : String) (h : occursIn needle y) :
    occursIn needle (x ++ y) := by
  obtain ⟨a, b, hab⟩ := h
  exact ⟨x.data ++ a, b, by simp [hab]⟩

theorem occursIn_self (s : String) : occursIn s s :=
  ⟨[], [], by simp⟩

theorem dedupNew_eq_filter (existingComments : List Comment) :
    ∀ newComments, dedupNew existingComments newComments
      = newComments.filter (fun c => !(isDuplicate existingComments c))
  | [] => rfl
  | c :: rest => by
    rw [dedupNew, dedupNew_eq_filter existingComments rest, List.filter_cons]
    by_cases h : isDuplicate existingComments c = true <;> simp [h]

theorem isDuplicate_false_iff (existingComments : List Comment) (c : Comment) :
    isDuplicate existingComments c = false
      ↔ ∀ e ∈ existingComments,
          ¬(e.path = c.path ∧ e.line = c.line ∧ jsTrim e.body = jsTrim c.body) := by
  simp only [isDuplicate, ← Bool.not_eq_true, List.any_eq_true, not_exists]
  constructor
  · intro h e he
    have := h e
    simp only [he, true_and, Bool.and_eq_true, beq_iff_eq] at this
    tauto
  · intro h e
    by_cases he : e ∈ existingComments
    · have := h e he
      simp only [he, true_and, Bool.and_eq_true, beq_iff_eq]
      tauto
    · simp [he]

theorem mem_dedupNew {existingComments newComments : List Comment} {c : Comment} :
    c ∈ dedupNew existingComments newComments
      ↔ c ∈ newComments ∧ isDuplicate existingComments c = false := by
  rw [dedupNew_eq_filter, List.mem_filter]
  simp

theorem createCommentLogged_fst (file : File) (chunk : Chunk) :
    ∀ items, (createCommentLogged file chunk items).1
      = items.flatMap (fun i => (createCommentOne file chunk i).1)
  | [] => rfl
  | item :: rest => by
    rw [createCommentLogged, List.flatMap_cons, ← createCommentLogged_fst file chunk rest]

theorem createCommentLogged_snd (file : File) (chunk : Chunk) :
    ∀ items, (createCommentLogged file chunk items).2
      = items.flatMap (fun i => (createCommentOne file chunk i).2)
  | [] => rfl
  | item :: rest => by
    rw [createCommentLogged, List.flatMap_cons, ← createCommentLogged_snd file chunk rest]

/-! ### Claim theorems -/

/-- **C2** (confirmed).  `createComment` emits a Comment only if the item's
`lineNumber` resolves to a change record present in the chunk (equals the
`ln` or `ln2` field of some change, which is what `matchesLine` tests); when
no change matches, no Comment is emitted for that item and a diagnostic
naming the file and the claimed line number is logged.  A Comment is never
fabricated for an unresolvable line. -/
theorem claim_C2 :
    (∀ (file : File) (chunk : Chunk) (items : List ReviewItem) (cm : Comment),
      cm ∈ createComment file chunk items →
      ∃ item ∈ items, ∃ ch ∈ chunk.changes,
        matchesLine (jsNumber item.lineNumber) ch = true
        ∧ cm = { body := item.reviewComment, path := jsShowOptStr file.«to»,
                 line := commentLineOf ch })
    ∧ (∀ (file : File) (chunk : Chunk) (items : List ReviewItem)
        (item : ReviewItem),
      item ∈ items →
      jsFalsyFileTo file.«to» = false →
      chunk.changes.find? (fun ch => matchesLine (jsNumber item.lineNumber) ch)
          = none →
      (createCommentOne file chunk item).1 = []
      ∧ ("Line number " ++ item.lineNumber ++ " not found in the diff for file "
          ++ jsShowOptStr file.«to») ∈ (createCommentLogged file chunk items).2) := by
  constructor
  · intro file chunk items cm hmem
    rw [createComment, createCommentLogged_fst] at hmem
    obtain ⟨item, hitem, hin⟩ := List.mem_flatMap.mp hmem
    unfold createCommentOne at hin
    by_cases hf : jsFalsyFileTo file.«to» = true
    · rw [if_pos hf] at hin
      simp at hin
    · rw [if_neg hf] at hin
      cases hfind : chunk.changes.find?
          (fun c => matchesLine (jsNumber item.lineNumber) c) with
      | none => rw [hfind] at hin; simp at hin
      | some ch =>
        rw [hfind] at hin
        simp only [List.mem_singleton] at hin
        exact ⟨item, hitem, ch, List.mem_of_find?_eq_some hfind,
          List.find?_some hfind, hin⟩
  · intro file chunk items item hitem hf hfind
    have hone : createCommentOne file chunk item
        = ([], ["Line number " ++ item.lineNumber
                ++ " not found in the diff for file " ++ jsShowOptStr file.«to»]) := by
      unfold createCommentOne
      rw [if_neg (by simp [hf]), hfind]
    refine ⟨by rw [hone], ?_⟩
    rw [createCommentLogged_snd]
    exact List.mem_flatMap.mpr ⟨item, hitem, by rw [hone]; exact List.mem_singleton.mpr rfl⟩

/-- Witness for C2 at a concrete input: an item claiming line 7 against a
chunk whose only change is the addition of line 3 yields no comment and the
diagnostic naming the file and the line. -/
theorem claim_C2_witness :
    (createCommentOne ⟨some "a.ts", []⟩ ⟨"@@", [Change.add 3 "+y"]⟩
        ⟨"7", "nope"⟩).1 = []
    ∧ ("Line number " ++ "7" ++ " not found in the diff for file " ++ "a.ts")
        ∈ (createCommentLogged ⟨some "a.ts", []⟩ ⟨"@@", [Change.add 3 "+y"]⟩
            [⟨"7", "nope"⟩]).2 :=
  claim_C2.2 ⟨some "a.ts", []⟩ ⟨"@@", [Change.add 3 "+y"]⟩ [⟨"7", "nope"⟩]
    ⟨"7", "nope"⟩ (List.mem_singleton.mpr rfl) rfl rfl

/-- **C4** (confirmed).  The deduplication loop of `analyzeCode` excludes a
newly generated comment exactly when some existing PR review comment has the
same path, the same line, and an equal trimmed body; a new comment differing
from every existing comment in trimmed body is retained even with the same
path and line. -/
theorem claim_C4 :
    ∀ (existingComments newComments : List Comment) (c : Comment),
      (c ∈ dedupNew existingComments newComments
        ↔ c ∈ newComments
          ∧ ¬∃ e ∈ existingComments,
              e.path = c.path ∧ e.line = c.line ∧ jsTrim e.body = jsTrim c.body)
      ∧ (c ∈ newComments →
          (∀ e ∈ existingComments, jsTrim e.body ≠ jsTrim c.body) →
          c ∈ dedupNew existingComments newComments) := by
  intro existingComments newComments c
  have hiff : c ∈ dedupNew existingComments newComments
      ↔ c ∈ newComments
        ∧ ¬∃ e ∈ existingComments,
            e.path = c.path ∧ e.line = c.line ∧ jsTrim e.body = jsTrim c.body := by
    rw [mem_dedupNew, and_congr_right_iff]
    intro _
    rw [isDuplicate_false_iff]
    simp
  refine ⟨hiff, fun hmem hbody => hiff.mpr ⟨hmem, ?_⟩⟩
  rintro ⟨e, he, -, -, htrim⟩
  exact hbody e he htrim

/-- Witness for C4 at a concrete input: with an existing comment
`{path := "a.ts", line := 10, body := "X "}`, a new comment with equal
trimmed body is excluded and one differing only in body is retained. -/
theorem claim_C4_witness :
    ((⟨"Y", "a.ts", 10⟩ : Comment)
        ∈ dedupNew [⟨"X ", "a.ts", 10⟩] [⟨"X", "a.ts", 10⟩, ⟨"Y", "a.ts", 10⟩])
    ∧ ¬((⟨"X", "a.ts", 10⟩ : Comment)
        ∈ dedupNew [⟨"X ", "a.ts", 10⟩] [⟨"X", "a.ts", 10⟩, ⟨"Y", "a.ts", 10⟩]) := by
  constructor
  · exact (claim_C4 [⟨"X ", "a.ts", 10⟩] [⟨"X", "a.ts", 10⟩, ⟨"Y", "a.ts", 10⟩]
      ⟨"Y", "a.ts", 10⟩).2 (by simp) (by decide)
  · intro h
    have := (claim_C4 [⟨"X ", "a.ts", 10⟩] [⟨"X", "a.ts", 10⟩, ⟨"Y", "a.ts", 10⟩]
      ⟨"X", "a.ts", 10⟩).1.mp h
    exact this.2 ⟨⟨"X ", "a.ts", 10⟩, by simp, rfl, rfl, by decide⟩

/-- **C9** (confirmed).  For a parsed diff in which every file is a deletion
(target path is the `"/dev/null"` sentinel), `analyzeCode` returns an empty
comment list, and `main` makes no publish call (the comment list being empty,
the publish branch is not taken). -/
theorem claim_C9 :
    ∀ (FRAMEWORK : String) (parsedDiff : List File) (prDetails : PRDetails)
      (existingComments : List Comment) (ai : String → Option (List ReviewItem))
      (commit_id : String) (fails : ReviewCommentRequest → Bool),
      (∀ f ∈ parsedDiff, f.«to» = some "/dev/null") →
      analyzeCode FRAMEWORK parsedDiff prDetails existingComments ai = []
      ∧ mainPublish prDetails
          (analyzeCode FRAMEWORK parsedDiff prDetails existingComments ai)
          commit_id fails = [] := by
  intro FRAMEWORK parsedDiff prDetails existingComments ai commit_id fails hall
  have hnil : analyzeCode FRAMEWORK parsedDiff prDetails existingComments ai = [] := by
    induction parsedDiff with
    | nil => rfl
    | cons f rest ih =>
      rw [analyzeCode]
      rw [if_pos (by simp [hall f (List.mem_cons_self f rest)]),
        ih (fun g hg => hall g (List.mem_cons_of_mem f hg))]
      rfl
  refine ⟨hnil, ?_⟩
  rw [hnil]
  rfl

/-- Witness for C9 at a concrete input: a diff consisting of one deleted
file produces no comments and no publish attempt. -/
theorem claim_C9_witness :
    analyzeCode "X" [⟨some "/dev/null", [⟨"@@", [Change.del 1 "-x"]⟩]⟩]
        ⟨"o", "r", 1, "T", "D"⟩ [] (fun _ => some [⟨"1", "c"⟩]) = []
    ∧ mainPublish ⟨"o", "r", 1, "T", "D"⟩
        (analyzeCode "X" [⟨some "/dev/null", [⟨"@@", [Change.del 1 "-x"]⟩]⟩]
          ⟨"o", "r", 1, "T", "D"⟩ [] (fun _ => some [⟨"1", "c"⟩]))
        "sha" (fun _ => false) = [] :=
  claim_C9 "X" [⟨some "/dev/null", [⟨"@@", [Change.del 1 "-x"]⟩]⟩]
    ⟨"o", "r", 1, "T", "D"⟩ [] (fun _ => some [⟨"1", "c"⟩]) "sha" (fun _ => false)
    (by simp)

/-- **C10** (confirmed).  `getExistingComments` returns exactly the existing
PR review comments that carry a defined `line` field — so the deduplication
ledger never contains line-less (outdated or file-level) comments, and when
every raw comment is line-less the ledger is empty and suppresses nothing. -/
theorem claim_C10 :
    ∀ data : List RawReviewComment,
      (∀ c : Comment, c ∈ getExistingComments data
        ↔ ∃ r ∈ data, r.path = c.path ∧ r.line = some c.line ∧ r.body = c.body)
      ∧ ((∀ r ∈ data, r.line = none) →
          ∀ newComments, dedupNew (getExistingComments data) newComments
            = newComments) := by
  intro data
  constructor
  · intro c
    constructor
    · intro hmem
      obtain ⟨r, hrf, hproj⟩ := List.mem_map.mp hmem
      obtain ⟨hrdata, hsome⟩ := List.mem_filter.mp hrf
      obtain ⟨v, hv⟩ := Option.isSome_iff_exists.mp hsome
      refine ⟨r, hrdata, ?_, ?_, ?_⟩ <;> cases hproj <;> simp [hv]
    · rintro ⟨r, hrdata, hpath, hline, hbody⟩
      refine List.mem_map.mpr ⟨r, List.mem_filter.mpr ⟨hrdata, by simp [hline]⟩, ?_⟩
      cases c
      simp_all
  · intro hnone newComments
    have hempty : getExistingComments data = [] := by
      rw [getExistingComments]
      rw [List.filter_eq_nil_iff.mpr (fun r hr => by simp [hnone r hr])]
      rfl
    rw [hempty]
    induction newComments with
    | nil => rfl
    | cons c rest ih => rw [dedupNew, if_neg (by simp [isDuplicate]), ih]

/-- Witness for C10 at a concrete input: one raw comment without a line
yields an empty ledger, and an identically-bodied new comment at the same
path survives deduplication. -/
theorem claim_C10_witness :
    dedupNew (getExistingComments [⟨"a.ts", none, "X"⟩]) [⟨"X", "a.ts", 10⟩]
      = [⟨"X", "a.ts", 10⟩] :=
  (claim_C10 [⟨"a.ts", none, "X"⟩]).2 (by simp) [⟨"X", "a.ts", 10⟩]

/-- Counterexample to C1 as stated: the claimed line number `"5"` matches the
deletion change `del 5` (its old-side line), and `createComment` emits a
comment anchored to line `5` — the change's OLD-side number, not a new-side
number (the deletion has none), and not the 0 fallback either. -/
theorem claim_C1_counterexample :
    createComment ⟨some "a.ts", []⟩ ⟨"@@ -5,1 +5,0 @@", [Change.del 5 "-x"]⟩
        [⟨"5", "drop this"⟩]
      = [{ body := "drop this", path := "a.ts", line := 5 }]
    ∧ matchesLine (jsNumber "5") (Change.del 5 "-x") = true
    ∧ (Change.del 5 "-x").oldLine = some 5
    ∧ ¬((Change.del 5 "-x").newLine = some 5
        ∨ ((Change.del 5 "-x").newLine = none
            ∧ (Change.del 5 "-x").oldLine = none ∧ (5 : Int) = 0)) := by
  refine ⟨rfl, rfl, rfl, ?_⟩
  simp [Change.newLine, Change.oldLine]

/-- **C1** (corrected).  For every ReviewItem whose claimed line number
matches a change in its chunk under the code's test (`find?` over
`matchesLine`, i.e. equality with the change's `ln` or `ln2` field),
`createComment` emits a Comment whose line is the matched change's new-side
line number when the change has one (additions and context lines), and its
OLD-side line number otherwise (deletions); the 0 fallback would require a
change with neither field, which `parse-diff` never produces. -/
theorem claim_C1 :
    ∀ (file : File) (chunk : Chunk) (items : List ReviewItem)
      (item : ReviewItem) (c : Change),
      item ∈ items →
      jsFalsyFileTo file.«to» = false →
      chunk.changes.find? (fun ch => matchesLine (jsNumber item.lineNumber) ch)
          = some c →
      ({ body := item.reviewComment, path := jsShowOptStr file.«to»,
         line := commentLineOf c } : Comment) ∈ createComment file chunk items
      ∧ ((∃ n, c.newLine = some n ∧ commentLineOf c = n)
          ∨ (c.newLine = none ∧ c.oldLine = some (commentLineOf c))) := by
  intro file chunk items item c hitem hf hfind
  constructor
  · rw [createComment, createCommentLogged_fst]
    refine List.mem_flatMap.mpr ⟨item, hitem, ?_⟩
    unfold createCommentOne
    rw [if_neg (by simp [hf]), hfind]
    exact List.mem_singleton.mpr rfl
  · cases c with
    | normal ln1 ln2 content =>
      exact Or.inl ⟨ln2, rfl, rfl⟩
    | add ln content =>
      exact Or.inl ⟨ln, rfl, rfl⟩
    | del ln content =>
      exact Or.inr ⟨rfl, rfl⟩

/-- Witness for C1 at a concrete input: an item claiming line 3 against a
chunk adding line 3 yields a comment anchored to the (new-side) line 3. -/
theorem claim_C1_witness :
    ({ body := "tidy", path := "a.ts",
       line := commentLineOf (Change.add 3 "+y") } : Comment)
      ∈ createComment ⟨some "a.ts", []⟩ ⟨"@@", [Change.add 3 "+y"]⟩
          [⟨"3", "tidy"⟩]
    ∧ ((∃ n, (Change.add 3 "+y").newLine = some n
          ∧ commentLineOf (Change.add 3 "+y") = n)
        ∨ ((Change.add 3 "+y").newLine = none
            ∧ (Change.add 3 "+y").oldLine
                = some (commentLineOf (Change.add 3 "+y")))) :=
  claim_C1 ⟨some "a.ts", []⟩ ⟨"@@", [Change.add 3 "+y"]⟩ [⟨"3", "tidy"⟩]
    ⟨"3", "tidy"⟩ (Change.add 3 "+y") (List.mem_singleton.mpr rfl) rfl rfl

/-- Counterexample to C3 as stated: the older variant's `getAIResponse` has
no raw-JSON fallback.  The response `{"reviews": []}` contains no fenced
```json block, is well-formed JSON with a `reviews` key, yet the older
variant returns the no-review value; the newer variant's fallback parses it. -/
theorem claim_C3_counterexample :
    extractCodeBlock (jsTrim "\x7b\"reviews\": []\x7d") = none
    ∧ parseJson (jsTrim "\x7b\"reviews\": []\x7d")
        = some (Json.obj [("reviews", Json.arr [])])
    ∧ V0.getAIResponse (some "\x7b\"reviews\": []\x7d") = none
    ∧ getAIResponse (some "\x7b\"reviews\": []\x7d") = some [] :=
  ⟨rfl, rfl, rfl, rfl⟩

/-- **C3** (corrected).  The newer variant's `getAIResponse` behaves as the
claim states: it extracts the payload from a fenced ```json block when one
is present, otherwise falls back to treating the whole (trimmed) response as
raw JSON; an API-call failure, a parse failure, or a missing `reviews` key is
non-fatal — the function returns the no-review value and the chunk
contributes zero comments while the run continues with the remaining chunks.
The OLDER variant has no raw-JSON fallback: without a fenced ```json block it
always returns the no-review value. -/
theorem claim_C3 :
    getAIResponse none = none
    ∧ (∀ s cap j r, extractCodeBlock (jsTrim s) = some cap →
        parseJson cap = some j → j.getField "reviews" = some r →
        getAIResponse (some s) = some (jsonToItems r))
    ∧ (∀ s j r, extractCodeBlock (jsTrim s) = none →
        parseJson (jsTrim s) = some j → j.getField "reviews" = some r →
        getAIResponse (some s) = some (jsonToItems r))
    ∧ (∀ s cap, extractCodeBlock (jsTrim s) = some cap → parseJson cap = none →
        getAIResponse (some s) = none)
    ∧ (∀ s, extractCodeBlock (jsTrim s) = none → parseJson (jsTrim s) = none →
        getAIResponse (some s) = none)
    ∧ (∀ s cap j, extractCodeBlock (jsTrim s) = some cap →
        parseJson cap = some j → j.getField "reviews" = none →
        getAIResponse (some s) = none)
    ∧ (∀ (FRAMEWORK : String) (file : File) (chunk : Chunk)
        (prDetails : PRDetails) (existingComments : List Comment)
        (ai : String → Option (List ReviewItem)) (rest : List Chunk),
        ai (createPrompt FRAMEWORK file chunk prDetails) = none →
        analyzeChunks FRAMEWORK file prDetails existingComments ai (chunk :: rest)
          = analyzeChunks FRAMEWORK file prDetails existingComments ai rest)
    ∧ (∀ s, extractCodeBlock (jsTrim s) = none →
        V0.getAIResponse (some s) = none) := by
  have hempty : parseJson "" = none := rfl
  have hcap : ∀ cap : String, parseJson cap ≠ none → (cap == "") = false := by
    intro cap hp
    cases hbeq : cap == "" with
    | true =>
      have : cap = "" := by simpa using hbeq
      rw [this] at hp
      exact absurd hempty hp
    | false => rfl
  refine ⟨rfl, ?_, ?_, ?_, ?_, ?_, ?_, ?_⟩
  · intro s cap j r hext hpar hrev
    simp only [getAIResponse]
    rw [hext, if_neg (by simp [hcap cap (by rw [hpar]; exact Option.some_ne_none j)])]
    simp only [hpar, hrev]
  · intro s j r hext hpar hrev
    simp only [getAIResponse]
    rw [hext,
      if_neg (by simp [hcap (jsTrim s) (by rw [hpar]; exact Option.some_ne_none j)])]
    simp only [hpar, hrev]
  · intro s cap hext hpar
    simp only [getAIResponse]
    rw [hext]
    by_cases hc : (cap == "") = true
    · rw [if_pos hc]
    · rw [if_neg hc, hpar]
  · intro s hext hpar
    simp only [getAIResponse]
    rw [hext]
    by_cases hc : (jsTrim s == "") = true
    · rw [if_pos hc]
    · rw [if_neg hc, hpar]
  · intro s cap j hext hpar hrev
    simp only [getAIResponse]
    rw [hext, if_neg (by simp [hcap cap (by rw [hpar]; exact Option.some_ne_none j)])]
    simp only [hpar, hrev]
  · intro FRAMEWORK file chunk prDetails existingComments ai rest hai
    rw [analyzeChunks, chunkStep, hai]
    rfl
  · intro s hext
    simp only [V0.getAIResponse]
    rw [hext]
    rfl

/-- Witness for C3 at concrete inputs: a fenced block parses (newer variant),
and a fenced-block-free response is rejected by the older variant. -/
theorem claim_C3_witness :
    getAIResponse (some "```json\x7b\"reviews\": []\x7d```") = some []
    ∧ V0.getAIResponse (some "no block here") = none := by
  constructor
  · have h := claim_C3.2.1 "```json\x7b\"reviews\": []\x7d```"
      "\x7b\"reviews\": []\x7d" (Json.obj [("reviews", Json.arr [])])
      (Json.arr []) rfl rfl rfl
    exact h.trans rfl
  · exact claim_C3.2.2.2.2.2.2.2 "no block here" rfl

/-- Every request produced by `createReviewCommentAttempts` is stamped with
the `commit_id` argument. -/
theorem mem_attempts_commit_id
    {owner repo : String} {pull_number : Int} {comments : List Comment}
    {commit_id : String} {fails : ReviewCommentRequest → Bool}
    {r : ReviewCommentRequest} {b : Bool}
    (h : (r, b) ∈ createReviewCommentAttempts owner repo pull_number comments
      commit_id fails) : r.commit_id = commit_id := by
  unfold createReviewCommentAttempts at h
  by_cases hlen : (comments.filter validComment).length = 0
  · rw [if_pos hlen] at h
    simp at h
  · rw [if_neg hlen] at h
    obtain ⟨c, _, hproj⟩ := List.mem_map.mp h
    have := congrArg Prod.fst hproj
    simp only at this
    rw [← this]

/-- **C5** (confirmed).  On a `synchronize` event, `main` requests the diff
via a compare-commits call with the event's `before` SHA as base and `after`
SHA as head — not the PR's base-to-head diff — and every comment published in
that run carries the `after` SHA as its `commit_id`. -/
theorem claim_C5 :
    ∀ (prDetails : PRDetails) (eventData : EventData) (comments : List Comment)
      (fails : ReviewCommentRequest → Bool),
      eventData.action = "synchronize" →
      mainDiffRequest prDetails eventData
        = some (.compareCommits prDetails.owner prDetails.repo
                  eventData.before eventData.after,
                eventData.after)
      ∧ (∀ (r : ReviewCommentRequest) (b : Bool),
          (r, b) ∈ mainPublish prDetails comments eventData.after fails →
          r.commit_id = eventData.after)
      ∧ (∀ (FRAMEWORK : String) (parseDiffFn : String → List File)
          (diffProvider : DiffRequest → Option String) (excludeInput : String)
          (existingComments : List Comment)
          (ai : String → Option (List ReviewItem))
          (r : ReviewCommentRequest) (b : Bool),
          (r, b) ∈ mainModel FRAMEWORK parseDiffFn diffProvider excludeInput
            existingComments ai fails prDetails eventData →
          r.commit_id = eventData.after) := by
  intro prDetails eventData comments fails haction
  have hreq : mainDiffRequest prDetails eventData
      = some (.compareCommits prDetails.owner prDetails.repo
                eventData.before eventData.after,
              eventData.after) := by
    unfold mainDiffRequest
    rw [haction]
    rfl
  have hpub : ∀ (cs : List Comment) (r : ReviewCommentRequest) (b : Bool),
      (r, b) ∈ mainPublish prDetails cs eventData.after fails →
      r.commit_id = eventData.after := by
    intro cs r b h
    unfold mainPublish at h
    by_cases hlen : cs.length > 0
    · rw [if_pos hlen] at h
      exact mem_attempts_commit_id h
    · rw [if_neg hlen] at h
      simp at h
  refine ⟨hreq, hpub comments, ?_⟩
  intro FRAMEWORK parseDiffFn diffProvider excludeInput existingComments ai r b h
  unfold mainModel at h
  rw [hreq] at h
  simp only at h
  cases hdp : diffProvider (.compareCommits prDetails.owner prDetails.repo
      eventData.before eventData.after) with
  | none => rw [hdp] at h; simp at h
  | some diff =>
    rw [hdp] at h
    simp only at h
    by_cases hd : (diff == "") = true
    · rw [if_pos hd] at h
      simp at h
    · rw [if_neg hd] at h
      exact hpub _ r b h

/-- Witness for C5 at a concrete run: a synchronize event with before `"B"`
and after `"A"`; the diff request compares `B..A` and the one published
comment carries commit id `"A"`. -/
theorem claim_C5_witness :
    mainDiffRequest ⟨"o", "r", 7, "T", "D"⟩ ⟨"synchronize", "B", "A", "H"⟩
      = some (.compareCommits "o" "r" "B" "A", "A")
    ∧ ({ owner := "o", repo := "r", pull_number := 7, body := "c",
         path := "f.ts", line := 1, side := "RIGHT",
         commit_id := "A" } : ReviewCommentRequest).commit_id = "A" := by
  have h := claim_C5 ⟨"o", "r", 7, "T", "D"⟩ ⟨"synchronize", "B", "A", "H"⟩ []
    (fun _ => false) rfl
  refine ⟨h.1, ?_⟩
  refine h.2.2 "X" (fun _ => [⟨some "f.ts", [⟨"@@", [Change.add 1 "+x"]⟩]⟩])
    (fun _ => some "d") "" [] (fun _ => some [⟨"1", "c"⟩]) _ false ?_
  have hm : mainModel "X"
      (fun _ => [⟨some "f.ts", [⟨"@@", [Change.add 1 "+x"]⟩]⟩])
      (fun _ => some "d") "" [] (fun _ => some [⟨"1", "c"⟩]) (fun _ => false)
      ⟨"o", "r", 7, "T", "D"⟩ ⟨"synchronize", "B", "A", "H"⟩
      = [({ owner := "o", repo := "r", pull_number := 7, body := "c",
            path := "f.ts", line := 1, side := "RIGHT",
            commit_id := "A" }, false)] := rfl
  rw [hm]
  exact List.mem_singleton.mpr rfl

/-- **C6** (confirmed).  The newer variant's `createReviewComment` first
filters the comments to those with a non-empty path, a line strictly greater
than 0, and a body non-empty after trimming, then posts each survivor
individually: the attempted requests are exactly the filtered comments (in
order), and they do not depend on which individual posts fail. -/
theorem claim_C6 :
    ∀ (owner repo : String) (pull_number : Int) (comments : List Comment)
      (commit_id : String) (fails : ReviewCommentRequest → Bool),
      ((createReviewCommentAttempts owner repo pull_number comments commit_id
          fails).map Prod.fst
        = (comments.filter validComment).map (fun comment =>
            { owner := owner, repo := repo, pull_number := pull_number,
              body := comment.body, path := comment.path, line := comment.line,
              side := "RIGHT", commit_id := commit_id }))
      ∧ (∀ fails' : ReviewCommentRequest → Bool,
          (createReviewCommentAttempts owner repo pull_number comments commit_id
            fails).map Prod.fst
          = (createReviewCommentAttempts owner repo pull_number comments
              commit_id fails').map Prod.fst)
      ∧ (∀ c : Comment, c ∈ comments.filter validComment
          ↔ c ∈ comments
            ∧ ¬c.path = "" ∧ 0 < c.line ∧ ¬jsTrim c.body = "") := by
  intro owner repo pull_number comments commit_id fails
  have hmap : ∀ g : ReviewCommentRequest → Bool,
      (createReviewCommentAttempts owner repo pull_number comments commit_id
        g).map Prod.fst
      = (comments.filter validComment).map (fun comment =>
          { owner := owner, repo := repo, pull_number := pull_number,
            body := comment.body, path := comment.path, line := comment.line,
            side := "RIGHT", commit_id := commit_id }) := by
    intro g
    unfold createReviewCommentAttempts
    by_cases hlen : (comments.filter validComment).length = 0
    · rw [if_pos hlen, List.eq_nil_of_length_eq_zero hlen]
      rfl
    · rw [if_neg hlen, List.map_map]
      rfl
  refine ⟨hmap fails, fun fails' => by rw [hmap fails, hmap fails'], ?_⟩
  intro c
  rw [List.mem_filter]
  unfold validComment
  simp [and_assoc]

/-- Witness for C6 at a concrete input: of three candidate comments — one
valid, one at line 0, one whose body trims to empty — exactly the valid one
is attempted, with identical attempts under a failing post oracle. -/
theorem claim_C6_witness :
    ((createReviewCommentAttempts "o" "r" 7
        [⟨"c", "f.ts", 1⟩, ⟨"z", "f.ts", 0⟩, ⟨"  ", "f.ts", 2⟩] "A"
        (fun _ => false)).map Prod.fst
      = [{ owner := "o", repo := "r", pull_number := 7, body := "c",
           path := "f.ts", line := 1, side := "RIGHT", commit_id := "A" }])
    ∧ ((createReviewCommentAttempts "o" "r" 7
        [⟨"c", "f.ts", 1⟩, ⟨"z", "f.ts", 0⟩, ⟨"  ", "f.ts", 2⟩] "A"
        (fun _ => false)).map Prod.fst
      = (createReviewCommentAttempts "o" "r" 7
          [⟨"c", "f.ts", 1⟩, ⟨"z", "f.ts", 0⟩, ⟨"  ", "f.ts", 2⟩] "A"
          (fun _ => true)).map Prod.fst) := by
  have h := claim_C6 "o" "r" 7
    [⟨"c", "f.ts", 1⟩, ⟨"z", "f.ts", 0⟩, ⟨"  ", "f.ts", 2⟩] "A" (fun _ => false)
  exact ⟨by rw [h.1]; decide, h.2.1 (fun _ => true)⟩

/-- **C8** (confirmed).  A file whose path (`file.to ?? ""`) matches any of
the comma-separated exclusion glob patterns is removed from the file list
before any analysis: membership in the filtered list holds exactly for files
matching no pattern, and an excluded file's presence in the parsed diff
leaves the whole analysis (hence every prompt built) unchanged for every
completion oracle. -/
theorem claim_C8 :
    ∀ (parsedDiff : List File) (excludeInput : String) (f : File),
      (f ∈ filterFiles parsedDiff excludeInput
        ↔ f ∈ parsedDiff
          ∧ ∀ p ∈ excludePatternsOf excludeInput,
              minimatch (f.«to».getD "") p = false)
      ∧ (∀ (files1 files2 : List File) (FRAMEWORK : String)
          (prDetails : PRDetails) (existingComments : List Comment)
          (ai : String → Option (List ReviewItem)),
          (excludePatternsOf excludeInput).any
              (fun p => minimatch (f.«to».getD "") p) = true →
          analyzeCode FRAMEWORK
              (filterFiles (files1 ++ f :: files2) excludeInput)
              prDetails existingComments ai
            = analyzeCode FRAMEWORK
                (filterFiles (files1 ++ files2) excludeInput)
                prDetails existingComments ai) := by
  intro parsedDiff excludeInput f
  constructor
  · rw [filterFiles, List.mem_filter]
    simp only [Bool.not_eq_true', List.any_eq_false, Bool.not_eq_true]
  · intro files1 files2 FRAMEWORK prDetails existingComments ai h
    have hfilter : filterFiles (files1 ++ f :: files2) excludeInput
        = filterFiles (files1 ++ files2) excludeInput := by
      simp only [filterFiles, List.filter_append, List.filter_cons, h]
      rfl
    rw [hfilter]

/-- Witness for C8 at a concrete input: `yarn.lock` matches the exclusion
pattern `**/*.lock`, and its presence in the parsed diff leaves the analysis
unchanged. -/
theorem claim_C8_witness :
    analyzeCode "X"
        (filterFiles [⟨some "yarn.lock", [⟨"@@", [Change.add 1 "+x"]⟩]⟩]
          "*.md, **/*.lock")
        ⟨"o", "r", 1, "T", "D"⟩ [] (fun _ => none)
      = analyzeCode "X" (filterFiles [] "*.md, **/*.lock")
          ⟨"o", "r", 1, "T", "D"⟩ [] (fun _ => none) := by
  have h := (claim_C8 [⟨some "yarn.lock", [⟨"@@", [Change.add 1 "+x"]⟩]⟩]
      "*.md, **/*.lock" ⟨some "yarn.lock", [⟨"@@", [Change.add 1 "+x"]⟩]⟩).2
    [] [] "X" ⟨"o", "r", 1, "T", "D"⟩ [] (fun _ => none) (by rfl)
  exact h

/-- The pieces the older variant's prompt template always contains, located
by walking the template's append structure. -/
theorem v0_promptTemplate_parts
    (FRAMEWORK gl fileTo title desc content annotated : String) :
    occursIn "Your task is to review a pull request for "
      (V0.promptTemplate FRAMEWORK gl fileTo title desc content annotated)
    ∧ occursIn ("- Provide your response in JSON format: \x7b\"reviews\": [\x7b\"lineNumber\": <line_number>, \"reviewComment\": \"<review comment>\", \"optimizedCode\": \"<optimized code>\"\x7d]\x7d")
      (V0.promptTemplate FRAMEWORK gl fileTo title desc content annotated)
    ∧ occursIn "**Security**"
      (V0.promptTemplate FRAMEWORK gl fileTo title desc content annotated)
    ∧ occursIn "**Performance**"
      (V0.promptTemplate FRAMEWORK gl fileTo title desc content annotated)
    ∧ occursIn "**Maintainability**"
      (V0.promptTemplate FRAMEWORK gl fileTo title desc content annotated)
    ∧ occursIn "**Best Practices**"
      (V0.promptTemplate FRAMEWORK gl fileTo title desc content annotated)
    ∧ occursIn "**Testing**"
      (V0.promptTemplate FRAMEWORK gl fileTo title desc content annotated)
    ∧ occursIn "**Documentation**"
      (V0.promptTemplate FRAMEWORK gl fileTo title desc content annotated)
    ∧ occursIn FRAMEWORK
      (V0.promptTemplate FRAMEWORK gl fileTo title desc content annotated)
    ∧ occursIn gl
      (V0.promptTemplate FRAMEWORK gl fileTo title desc content annotated)
    ∧ occursIn fileTo
      (V0.promptTemplate FRAMEWORK gl fileTo title desc content annotated)
    ∧ occursIn title
      (V0.promptTemplate FRAMEWORK gl fileTo title desc content annotated)
    ∧ occursIn desc
      (V0.promptTemplate FRAMEWORK gl fileTo title desc content annotated)
    ∧ occursIn content
      (V0.promptTemplate FRAMEWORK gl fileTo title desc content annotated)
    ∧ occursIn annotated
      (V0.promptTemplate FRAMEWORK gl fileTo title desc content annotated) := by
  unfold V0.promptTemplate
  refine ⟨?_, ?_, ?_, ?_, ?_, ?_, ?_, ?_, ?_, ?_, ?_, ?_, ?_, ?_, ?_⟩
  · exact occursIn_left _ (occursIn_self _)
  · exact occursIn_right _ (occursIn_right _ (occursIn_left _
      ((occursB_iff _ _).mp (by rfl))))
  · exact occursIn_right _ (occursIn_right _ (occursIn_left _
      ((occursB_iff _ _).mp (by rfl))))
  · exact occursIn_right _ (occursIn_right _ (occursIn_left _
      ((occursB_iff _ _).mp (by rfl))))
  · exact occursIn_right _ (occursIn_right _ (occursIn_left _
      ((occursB_iff _ _).mp (by rfl))))
  · exact occursIn_right _ (occursIn_right _ (occursIn_left _
      ((occursB_iff _ _).mp (by rfl))))
  · exact occursIn_right _ (occursIn_right _ (occursIn_right _
      (occursIn_right _ (occursIn_left _ ((occursB_iff _ _).mp (by rfl))))))
  · exact occursIn_right _ (occursIn_right _ (occursIn_right _
      (occursIn_right _ (occursIn_left _ ((occursB_iff _ _).mp (by rfl))))))
  · exact occursIn_right _ (occursIn_left _ (occursIn_self _))
  · exact occursIn_right _ (occursIn_right _ (occursIn_right _
      (occursIn_right _ (occursIn_right _ (occursIn_left _ (occursIn_self _))))))
  · exact occursIn_right _ (occursIn_right _ (occursIn_right _
      (occursIn_right _ (occursIn_right _ (occursIn_right _ (occursIn_right _
      (occursIn_left _ (occursIn_self _))))))))
  · exact occursIn_right _ (occursIn_right _ (occursIn_right _
      (occursIn_right _ (occursIn_right _ (occursIn_right _ (occursIn_right _
      (occursIn_right _ (occursIn_right _ (occursIn_left _ (occursIn_self _))))))))))
  · exact occursIn_right _ (occursIn_right _ (occursIn_right _
      (occursIn_right _ (occursIn_right _ (occursIn_right _ (occursIn_right _
      (occursIn_right _ (occursIn_right _ (occursIn_right _ (occursIn_right _
      (occursIn_left _ (occursIn_self _))))))))))))
  · exact occursIn_right _ (occursIn_right _ (occursIn_right _
      (occursIn_right _ (occursIn_right _ (occursIn_right _ (occursIn_right _
      (occursIn_right _ (occursIn_right _ (occursIn_right _ (occursIn_right _
      (occursIn_right _ (occursIn_right _ (occursIn_left _ (occursIn_self _))))))))))))))
  · exact occursIn_right _ (occursIn_right _ (occursIn_right _
      (occursIn_right _ (occursIn_right _ (occursIn_right _ (occursIn_right _
      (occursIn_right _ (occursIn_right _ (occursIn_right _ (occursIn_right _
      (occursIn_right _ (occursIn_right _ (occursIn_right _ (occursIn_right _
      (occursIn_left _ (occursIn_self _))))))))))))))))

/-- The pieces the newer variant's prompt template always contains. -/
theorem main_promptTemplate_parts
    (FRAMEWORK gl fileTo title desc content annotated : String) :
    occursIn "Your task is to review pull requests for "
      (mainPromptTemplate FRAMEWORK gl fileTo title desc content annotated)
    ∧ occursIn ("\x7b\"reviews\": [\x7b\"lineNumber\":  <line_number>, \"reviewComment\": \"<review comment>\"\x7d]\x7d")
      (mainPromptTemplate FRAMEWORK gl fileTo title desc content annotated)
    ∧ occursIn FRAMEWORK
      (mainPromptTemplate FRAMEWORK gl fileTo title desc content annotated)
    ∧ occursIn gl
      (mainPromptTemplate FRAMEWORK gl fileTo title desc content annotated)
    ∧ occursIn fileTo
      (mainPromptTemplate FRAMEWORK gl fileTo title desc content annotated)
    ∧ occursIn title
      (mainPromptTemplate FRAMEWORK gl fileTo title desc content annotated)
    ∧ occursIn desc
      (mainPromptTemplate FRAMEWORK gl fileTo title desc content annotated)
    ∧ occursIn content
      (mainPromptTemplate FRAMEWORK gl fileTo title desc content annotated)
    ∧ occursIn annotated
      (mainPromptTemplate FRAMEWORK gl fileTo title desc content annotated) := by
  unfold mainPromptTemplate
  refine ⟨?_, ?_, ?_, ?_, ?_, ?_, ?_, ?_, ?_⟩
  · exact occursIn_left _ (occursIn_self _)
  · exact occursIn_right _ (occursIn_right _ (occursIn_left _
      ((occursB_iff _ _).mp (by rfl))))
  · exact occursIn_right _ (occursIn_left _ (occursIn_self _))
  · exact occursIn_right _ (occursIn_right _ (occursIn_right _
      (occursIn_left _ (occursIn_self _))))
  · exact occursIn_right _ (occursIn_right _ (occursIn_right _
      (occursIn_right _ (occursIn_right _ (occursIn_left _ (occursIn_self _))))))
  · exact occursIn_right _ (occursIn_right _ (occursIn_right _
      (occursIn_right _ (occursIn_right _ (occursIn_right _ (occursIn_right _
      (occursIn_left _ (occursIn_self _))))))))
  · exact occursIn_right _ (occursIn_right _ (occursIn_right _
      (occursIn_right _ (occursIn_right _ (occursIn_right _ (occursIn_right _
      (occursIn_right _ (occursIn_right _ (occursIn_left _ (occursIn_self _))))))))))
  · exact occursIn_right _ (occursIn_right _ (occursIn_right _
      (occursIn_right _ (occursIn_right _ (occursIn_right _ (occursIn_right _
      (occursIn_right _ (occursIn_right _ (occursIn_right _ (occursIn_right _
      (occursIn_left _ (occursIn_self _))))))))))))
  · exact occursIn_right _ (occursIn_right _ (occursIn_right _
      (occursIn_right _ (occursIn_right _ (occursIn_right _ (occursIn_right _
      (occursIn_right _ (occursIn_right _ (occursIn_right _ (occursIn_right _
      (occursIn_right _ (occursIn_right _ (occursIn_left _ (occursIn_self _))))))))))))))

/-- **C7** (corrected).  The OLDER variant `createPrompt` is a pure
function whose output includes the task framing, the requested JSON response
shape, the six enumerated review dimensions (Security, Performance,
Maintainability, Best Practices, Testing, Documentation), the
framework-selected guideline text, the file path, the PR title and
description, and the chunk diff text annotated per line (old-side
number for deletions, new-side otherwise — see `changeAnnotation`).  The
NEWER variant prompt includes all of these EXCEPT the enumerated
review dimensions (and requests no `optimizedCode` field). -/
theorem claim_C7 :
    ∀ (FRAMEWORK : String) (file : File) (chunk : Chunk)
      (prDetails : PRDetails),
      occursIn "Your task is to review a pull request for "
        (V0.createPrompt FRAMEWORK file chunk prDetails)
      ∧ occursIn ("- Provide your response in JSON format: \x7b\"reviews\": [\x7b\"lineNumber\": <line_number>, \"reviewComment\": \"<review comment>\", \"optimizedCode\": \"<optimized code>\"\x7d]\x7d")
        (V0.createPrompt FRAMEWORK file chunk prDetails)
      ∧ occursIn "**Security**"
        (V0.createPrompt FRAMEWORK file chunk prDetails)
      ∧ occursIn "**Performance**"
        (V0.createPrompt FRAMEWORK file chunk prDetails)
      ∧ occursIn "**Maintainability**"
        (V0.createPrompt FRAMEWORK file chunk prDetails)
      ∧ occursIn "**Best Practices**"
        (V0.createPrompt FRAMEWORK file chunk prDetails)
      ∧ occursIn "**Testing**"
        (V0.createPrompt FRAMEWORK file chunk prDetails)
      ∧ occursIn "**Documentation**"
        (V0.createPrompt FRAMEWORK file chunk prDetails)
      ∧ occursIn FRAMEWORK
        (V0.createPrompt FRAMEWORK file chunk prDetails)
      ∧ occursIn (jsShowOptStr file.«to»)
        (V0.createPrompt FRAMEWORK file chunk prDetails)
      ∧ occursIn prDetails.title
        (V0.createPrompt FRAMEWORK file chunk prDetails)
      ∧ occursIn prDetails.description
        (V0.createPrompt FRAMEWORK file chunk prDetails)
      ∧ occursIn chunk.content
        (V0.createPrompt FRAMEWORK file chunk prDetails)
      ∧ occursIn (annotatedChanges chunk)
        (V0.createPrompt FRAMEWORK file chunk prDetails)
      ∧ (FRAMEWORK = "Ruby on Rails" →
        occursIn V0.getRailsGuidelines (V0.createPrompt FRAMEWORK file chunk prDetails))
      ∧ (FRAMEWORK = "Angular" →
        occursIn V0.getAngularGuidelines (V0.createPrompt FRAMEWORK file chunk prDetails))
      ∧ (FRAMEWORK = "AngularJS" →
        occursIn V0.getAngularJSGuidelines (V0.createPrompt FRAMEWORK file chunk prDetails))
      ∧ (FRAMEWORK = "Cypress" →
        occursIn V0.getCypressGuidelines (V0.createPrompt FRAMEWORK file chunk prDetails))
      ∧ (FRAMEWORK = "Terraform" →
        occursIn V0.getTerraformGuidelines (V0.createPrompt FRAMEWORK file chunk prDetails))
      ∧ occursIn "Your task is to review pull requests for "
        (createPrompt FRAMEWORK file chunk prDetails)
      ∧ occursIn ("\x7b\"reviews\": [\x7b\"lineNumber\":  <line_number>, \"reviewComment\": \"<review comment>\"\x7d]\x7d")
        (createPrompt FRAMEWORK file chunk prDetails)
      ∧ occursIn FRAMEWORK
        (createPrompt FRAMEWORK file chunk prDetails)
      ∧ occursIn (jsShowOptStr file.«to»)
        (createPrompt FRAMEWORK file chunk prDetails)
      ∧ occursIn prDetails.title
        (createPrompt FRAMEWORK file chunk prDetails)
      ∧ occursIn prDetails.description
        (createPrompt FRAMEWORK file chunk prDetails)
      ∧ occursIn chunk.content
        (createPrompt FRAMEWORK file chunk prDetails)
      ∧ occursIn (annotatedChanges chunk)
        (createPrompt FRAMEWORK file chunk prDetails)
      ∧ (FRAMEWORK = "Ruby on Rails" →
        occursIn getRailsGuidelines (createPrompt FRAMEWORK file chunk prDetails)) := by
  intro FRAMEWORK file chunk prDetails
  obtain ⟨a1, a2, a3, a4, a5, a6, a7, a8, a9, _, a11, a12, a13, a14, a15⟩ :=
    v0_promptTemplate_parts FRAMEWORK
      (if FRAMEWORK == "Ruby on Rails" then V0.getRailsGuidelines
       else if FRAMEWORK == "Angular" then V0.getAngularGuidelines
       else if FRAMEWORK == "AngularJS" then V0.getAngularJSGuidelines
       else if FRAMEWORK == "Cypress" then V0.getCypressGuidelines
       else if FRAMEWORK == "Terraform" then V0.getTerraformGuidelines
       else "")
      (jsShowOptStr file.«to») prDetails.title prDetails.description
      chunk.content (annotatedChanges chunk)
  obtain ⟨b1, b2, b3, _, b5, b6, b7, b8, b9⟩ :=
    main_promptTemplate_parts FRAMEWORK
      (if FRAMEWORK == "Ruby on Rails" then getRailsGuidelines else "")
      (jsShowOptStr file.«to») prDetails.title prDetails.description
      chunk.content (annotatedChanges chunk)
  refine ⟨a1, a2, a3, a4, a5, a6, a7, a8, a9, a11, a12, a13, a14, a15,
    ?_, ?_, ?_, ?_, ?_, b1, b2, b3, b5, b6, b7, b8, b9, ?_⟩
  · intro h
    subst h
    exact (v0_promptTemplate_parts "Ruby on Rails" V0.getRailsGuidelines
      (jsShowOptStr file.«to») prDetails.title prDetails.description
      chunk.content (annotatedChanges chunk)).2.2.2.2.2.2.2.2.2.1
  · intro h
    subst h
    exact (v0_promptTemplate_parts "Angular" V0.getAngularGuidelines
      (jsShowOptStr file.«to») prDetails.title prDetails.description
      chunk.content (annotatedChanges chunk)).2.2.2.2.2.2.2.2.2.1
  · intro h
    subst h
    exact (v0_promptTemplate_parts "AngularJS" V0.getAngularJSGuidelines
      (jsShowOptStr file.«to») prDetails.title prDetails.description
      chunk.content (annotatedChanges chunk)).2.2.2.2.2.2.2.2.2.1
  · intro h
    subst h
    exact (v0_promptTemplate_parts "Cypress" V0.getCypressGuidelines
      (jsShowOptStr file.«to») prDetails.title prDetails.description
      chunk.content (annotatedChanges chunk)).2.2.2.2.2.2.2.2.2.1
  · intro h
    subst h
    exact (v0_promptTemplate_parts "Terraform" V0.getTerraformGuidelines
      (jsShowOptStr file.«to») prDetails.title prDetails.description
      chunk.content (annotatedChanges chunk)).2.2.2.2.2.2.2.2.2.1
  · intro h
    subst h
    exact (main_promptTemplate_parts "Ruby on Rails" getRailsGuidelines
      (jsShowOptStr file.«to») prDetails.title prDetails.description
      chunk.content (annotatedChanges chunk)).2.2.2.1

/-- Counterexample to C7 as stated: the NEWER variant `createPrompt`
(src/main.ts) does not include the enumerated review dimensions — its output
for a concrete input contains neither `"Security"` nor `"security"`, while
the older variant does. -/
theorem claim_C7_counterexample :
    ¬ occursIn "Security"
        (createPrompt "Angular" ⟨some "f.ts", []⟩ ⟨"@@", []⟩
          ⟨"o", "r", 1, "T", "D"⟩)
    ∧ ¬ occursIn "security"
        (createPrompt "Angular" ⟨some "f.ts", []⟩ ⟨"@@", []⟩
          ⟨"o", "r", 1, "T", "D"⟩)
    ∧ occursIn "**Security**"
        (V0.createPrompt "Angular" ⟨some "f.ts", []⟩ ⟨"@@", []⟩
          ⟨"o", "r", 1, "T", "D"⟩) := by
  refine ⟨?_, ?_, ?_⟩
  · intro h
    have hb := (occursB_iff _ _).mpr h
    have hb' : occursB "Security"
        (createPrompt "Angular" ⟨some "f.ts", []⟩ ⟨"@@", []⟩
          ⟨"o", "r", 1, "T", "D"⟩) = false := rfl
    rw [hb'] at hb
    exact Bool.false_ne_true hb
  · intro h
    have hb := (occursB_iff _ _).mpr h
    have hb' : occursB "security"
        (createPrompt "Angular" ⟨some "f.ts", []⟩ ⟨"@@", []⟩
          ⟨"o", "r", 1, "T", "D"⟩) = false := rfl
    rw [hb'] at hb
    exact Bool.false_ne_true hb
  · exact (v0_promptTemplate_parts "Angular" V0.getAngularGuidelines
      "f.ts" "T" "D" "@@" "").2.2.1

/-- Witness for C7 at a concrete input: the older variant prompt for the
Cypress framework contains the dimension list and the Cypress guideline
block. -/
theorem claim_C7_witness :
    occursIn "**Security**"
      (V0.createPrompt "Cypress" ⟨some "f.ts", []⟩ ⟨"@@", []⟩
        ⟨"o", "r", 1, "T", "D"⟩)
    ∧ occursIn V0.getCypressGuidelines
      (V0.createPrompt "Cypress" ⟨some "f.ts", []⟩ ⟨"@@", []⟩
        ⟨"o", "r", 1, "T", "D"⟩) := by
  have h := claim_C7 "Cypress" ⟨some "f.ts", []⟩ ⟨"@@", []⟩
    ⟨"o", "r", 1, "T", "D"⟩
  exact ⟨h.2.2.1, h.2.2.2.2.2.2.2.2.2.2.2.2.2.2.2.2.2.1 rfl⟩
